import Mathlib

set_option maxRecDepth 8000

/-!
Verification development for the Word-document → annotated-HTML formatter
(`api/process-word.py`).

The live request path is
`process_word_document` → `extract_paragraph_formatting` /
`extract_table_formatting` → `detect_document_type` →
`generate_formatted_html` → `apply_universal_formatting_rules`, the last
being an ordered sequence of normalization passes
(`simple_field_cleanup`, a debug banner, `fix_salutation_section`,
`fix_payment_information_cleanup`, `fix_remaining_patterns`,
`fix_header_structure_cleanup`, `add_document_title_and_re_table`,
`transform_to_target_format`) run inside one `try`/`except` block.

Texts are embedded as `List Char`.  Python `str.replace` becomes
`pyReplace`; `re.search` on the fixed patterns of the program becomes
`firstMatch` applied to a per-pattern prefix matcher (each pattern here is
deterministic once the usual greedy-with-backtracking semantics is unfolded,
so a matcher function suffices); `re.sub` becomes `regexSubAll` applied to a
per-pattern match-length function.  Python exceptions are embedded with
`Except`: the passes of this program are exception-free string
transformations, and the one external call that can raise (the document
parse) enters the model as an `Except` value.

`fix_salutation_section` and `add_document_title_and_re_table` are each
defined twice in the source; following Python semantics the later definition
shadows the earlier one, so the unprimed names below embed the later
definitions and the `_v1` names embed the shadowed earlier ones.
-/

/-- Python whitespace test (`str.strip`, regex `\s`) for the ASCII whitespace
characters. -/
def isPyWs (c : Char) : Bool :=
  c == ' ' || c == '\t' || c == '\n' || c == '\r' || c == '\x0b' || c == '\x0c'

/-- Python `str.strip()`: remove leading and trailing whitespace. -/
def pyStrip (s : List Char) : List Char :=
  ((s.dropWhile isPyWs).reverse.dropWhile isPyWs).reverse

/-- Position of the leftmost match of a prefix matcher `m`, as `re.search`
reports it: `m cs` decides whether the pattern matches at the start of the
suffix `cs`, and positions are tried left to right (the end-of-string
position included, though no pattern of this program matches there). -/
def firstMatch (m : List Char → Bool) : List Char → Option Nat
  | [] => if m [] then some 0 else none
  | c :: rest => if m (c :: rest) then some 0 else (firstMatch m rest).map (· + 1)

/-- Python `pat in text` (and `re.search` on a fully escaped literal):
substring containment. -/
def containsSub (pat t : List Char) : Bool :=
  (firstMatch (fun s => pat.isPrefixOf s) t).isSome

/-- Fuel-indexed worker for `pyReplace`: the fuel bounds the number of
characters still to be scanned, making the recursion structural. -/
def pyReplaceFuel (old new : List Char) : Nat → List Char → List Char
  | 0, t => t
  | _ + 1, [] => []
  | fuel + 1, c :: rest =>
    if old ≠ [] ∧ old.isPrefixOf (c :: rest) then
      new ++ pyReplaceFuel old new fuel (rest.drop (old.length - 1))
    else
      c :: pyReplaceFuel old new fuel rest

/-- Python `text.replace(old, new)`: replace all non-overlapping occurrences,
scanning left to right.  (For empty `old` this is the identity; every pattern
in this program is non-empty.) -/
def pyReplace (old new t : List Char) : List Char :=
  pyReplaceFuel old new t.length t

/-- Apply an ordered `(find, replace)` table, each entry replacing all of its
occurrences — the shared `for old_text, new_text in replacements:` loop. -/
def applyReplacements (tbl : List (List Char × List Char)) (t : List Char) : List Char :=
  tbl.foldl (fun acc p => pyReplace p.1 p.2 acc) t

/-- Fuel-indexed worker for `regexSubAll`. -/
def regexSubAllFuel (ml : List Char → Option Nat) (repl : List Char) :
    Nat → List Char → List Char
  | 0, t => t
  | _ + 1, [] => []
  | fuel + 1, c :: rest =>
    match ml (c :: rest) with
    | some (n + 1) => repl ++ regexSubAllFuel ml repl fuel (rest.drop n)
    | _ => c :: regexSubAllFuel ml repl fuel rest

/-- Python `re.sub(pattern, repl, text)` for the fixed patterns of this program:
`ml cs` gives the length the (deterministic greedy) pattern consumes when it
matches at the start of `cs`.  Every pattern here consumes at least one
character on a match. -/
def regexSubAll (ml : List Char → Option Nat) (repl t : List Char) : List Char :=
  regexSubAllFuel ml repl t.length t

/-- Number of positions at which `pat` occurs in `t`. -/
def countSub (pat : List Char) : List Char → Nat
  | [] => if pat.isPrefixOf ([] : List Char) then 1 else 0
  | c :: rest => (if pat.isPrefixOf (c :: rest) then 1 else 0) + countSub pat rest

/-- Scan past `[^>]*>` — greedily up to the first `>` — then test `p` on the
remainder; fails when no `>` follows. -/
def afterDivOpen (p : List Char → Bool) : List Char → Bool
  | [] => false
  | c :: rest => if c == '>' then p rest else afterDivOpen p rest

/-- Matcher for `<div[^>]*>` followed by whatever `p` accepts. -/
def matchDivOpenP (p : List Char → Bool) (cs : List Char) : Bool :=
  (("<div").data).isPrefixOf cs && afterDivOpen p (cs.drop 4)

/-- Matcher for `<div[^>]*>` followed by the literal `lit`. -/
def matchDivOpenThen (lit : List Char) : List Char → Bool :=
  matchDivOpenP (fun rest => lit.isPrefixOf rest)

/-- Length of the maximal whitespace run at the head (0 if none). -/
def wsRunLen : List Char → Nat
  | [] => 0
  | c :: rest => if isPyWs c then wsRunLen rest + 1 else 0

/-- Match length for `\s+` (greedy). -/
def wsPlusLen (cs : List Char) : Option Nat :=
  match wsRunLen cs with
  | 0 => none
  | n + 1 => some (n + 1)

/-- Consume `\s*` then the literal `lit`, returning the consumed length.
Greedy `\s*` before a literal starting with a non-whitespace character is
deterministic: skip the whole whitespace run, then require the literal. -/
def wsThenLit (lit : List Char) (cs : List Char) : Option Nat :=
  let w := wsRunLen cs
  if lit.isPrefixOf (cs.drop w) then some (w + lit.length) else none

/-- Match length for `openTag \s* closeTag`. -/
def tagPairLen (openTag closeTag : List Char) (cs : List Char) : Option Nat :=
  if openTag.isPrefixOf cs then
    match wsThenLit closeTag (cs.drop openTag.length) with
    | some n => some (openTag.length + n)
    | none => none
  else none

/-- Worker for `brRun7Len`: `k` further `\s*<br>` groups. -/
def brRunAux : Nat → List Char → Option Nat
  | 0, _ => some 0
  | k + 1, cs =>
    match wsThenLit (("<br>").data) cs with
    | some n => (brRunAux k (cs.drop n)).map (n + ·)
    | none => none

/-- Match length for `<br>\s*<br>\s*<br>\s*<br>\s*<br>\s*<br>\s*<br>`. -/
def brRun7Len (cs : List Char) : Option Nat :=
  if (("<br>").data).isPrefixOf cs then (brRunAux 6 (cs.drop 4)).map (4 + ·) else none

/-- Scan the maximal whitespace run at the head of the list, returning the
number of newlines inside it and the length up to and including the last of
those newlines (0 when there is none). -/
def wsNlScan : List Char → Nat × Nat
  | [] => (0, 0)
  | c :: rest =>
    if isPyWs c then
      let p := wsNlScan rest
      if c == '\n' then (p.1 + 1, if p.1 == 0 then 1 else p.2 + 1)
      else (p.1, if p.1 == 0 then 0 else p.2 + 1)
    else (0, 0)

/-- Match length for `\n\s*\n\s*\n`: the leading character must be a newline
and the whitespace run starting here must contain at least three newlines;
greedy `\s*` extends the match through the last newline of the run. -/
def nlWsNlLen : List Char → Option Nat
  | '\n' :: rest =>
    let p := wsNlScan ('\n' :: rest)
    if 3 ≤ p.1 then some p.2 else none
  | _ => none

/-- Length of the maximal newline run at the head. -/
def nlRunLen : List Char → Nat
  | '\n' :: rest => nlRunLen rest + 1
  | _ => 0

/-- Match length for `\n{3,}` (greedy). -/
def nl3Len (cs : List Char) : Option Nat :=
  if 3 ≤ nlRunLen cs then some (nlRunLen cs) else none

/-- Distance to the first occurrence of `c` (none if absent). -/
def distToChar (c : Char) : List Char → Option Nat
  | [] => none
  | d :: rest => if d == c then some 0 else (distToChar c rest).map (· + 1)

/-! ### Data model

The input side mirrors what the external document parser exposes (paragraphs
with alignment and runs; tables with rows of cells); the output side mirrors
the dictionaries built by the extractor. -/

/-- Paragraph alignment as exposed by the parser (`WD_ALIGN_PARAGRAPH`);
`other` stands for any further enum value, which the extractor maps to
`left` just like an absent alignment. -/
inductive WdAlign
  | left
  | center
  | right
  | justify
  | other
deriving DecidableEq

/-- A run of the parsed document: text plus formatting flags and an optional
font size in EMU (the `run.font.size` value of the parser). -/
structure DocxRun where
  text : List Char
  bold : Bool
  underline : Bool
  italic : Bool
  fontSizeEmu : Option Nat
deriving DecidableEq

/-- A paragraph of the parsed document. -/
structure DocxPara where
  alignment : Option WdAlign
  runs : List DocxRun
deriving DecidableEq

/-- A table cell of the parsed document (`cell.text` is the parser-provided
joined text). -/
structure DocxCell where
  text : List Char
  paragraphs : List DocxPara
deriving DecidableEq

/-- A table row of the parsed document. -/
structure DocxRow where
  cells : List DocxCell
deriving DecidableEq

/-- A table of the parsed document. -/
structure DocxTable where
  rows : List DocxRow
deriving DecidableEq

/-- The parsed document. -/
structure DocxDoc where
  paragraphs : List DocxPara
  tables : List DocxTable
deriving DecidableEq

/-- A run record as stored in the `runs` array of a paragraph by
`extract_paragraph_formatting`. -/
structure RunData where
  text : List Char
  bold : Bool
  underline : Bool
  italic : Bool
  fontSize : Option (List Char)
deriving DecidableEq

/-- A paragraph record (`para_data`). -/
structure ParaData where
  text : List Char
  alignment : List Char
  fontSize : Option (List Char)
  bold : Bool
  underline : Bool
  italic : Bool
  runs : List RunData
deriving DecidableEq

/-- A cell record (`cell_data`). -/
structure CellData where
  text : List Char
  width : Option (List Char)
  alignment : List Char
  bold : Bool
  underline : Bool
deriving DecidableEq

/-- A row record (`row_data`). -/
structure RowData where
  cells : List CellData
deriving DecidableEq

/-- A table record (`table_data`). -/
structure TableData where
  rows : List RowData
  width : List Char
  borderCollapse : Bool
deriving DecidableEq

/-! ### Extractor -/

/-- The alignment string chosen by `extract_paragraph_formatting`: `center`,
`right` or `justify` for those enum values, otherwise the default `left`
(`WD_ALIGN_PARAGRAPH.LEFT` is the falsy enum value 0, so it also keeps the
default). -/
def alignmentText : Option WdAlign → List Char
  | some WdAlign.center => ("center").data
  | some WdAlign.right => ("right").data
  | some WdAlign.justify => ("justify").data
  | _ => ("left").data

/-- The run record built inside `extract_paragraph_formatting`: the font size
is rendered as the decimal of the truncated point value followed by `pt` when `run.font.size` is
truthy (present and non-zero), with `Length.pt = emu / 12700` truncated. -/
def convertRun (r : DocxRun) : RunData :=
  { text := r.text
    bold := r.bold
    underline := r.underline
    italic := r.italic
    fontSize :=
      match r.fontSizeEmu with
      | none => none
      | some e => if e == 0 then none else some ((toString (e / 12700)).data ++ ("pt").data) }

/-- Embeds `extract_paragraph_formatting`: build the paragraph record; when the run
list is non-empty, `bold` is the conjunction over the runs whose stripped
text is non-empty, and `underline`/`italic` are disjunctions over all runs. -/
def extract_paragraph_formatting (p : DocxPara) : ParaData :=
  let runs := p.runs.map convertRun
  { text := (p.runs.map (fun r => r.text)).flatten
    alignment := alignmentText p.alignment
    fontSize := none
    bold :=
      if runs.isEmpty then false
      else (runs.filter (fun r => !(pyStrip r.text).isEmpty)).all (fun r => r.bold)
    underline := if runs.isEmpty then false else runs.any (fun r => r.underline)
    italic := if runs.isEmpty then false else runs.any (fun r => r.italic)
    runs := runs }

/-- Embeds `extract_table_formatting`: per cell, only the first run of the first
paragraph is sampled for bold/underline; a cell with no paragraphs (or an
empty first paragraph) keeps the defaults. -/
def extract_table_formatting (t : DocxTable) : TableData :=
  { rows := t.rows.map (fun row =>
      { cells := row.cells.map (fun cell =>
          { text := cell.text
            width := none
            alignment := ("left").data
            bold :=
              match cell.paragraphs with
              | [] => false
              | p :: _ =>
                match p.runs with
                | [] => false
                | r :: _ => r.bold
            underline :=
              match cell.paragraphs with
              | [] => false
              | p :: _ =>
                match p.runs with
                | [] => false
                | r :: _ => r.underline }) })
    width := ("100%").data
    borderCollapse := true }

/-! ### Document type classifier -/

/-- After the literal `\x7bInsert(H003`, require `\s+` then `TagHeader)\x7d`
(the greedy `\s+` before the non-whitespace `T` is deterministic). -/
def h003Tail (cs : List Char) : Bool :=
  match wsRunLen cs with
  | 0 => false
  | w + 1 => (("TagHeader)\x7d").data).isPrefixOf (cs.drop (w + 1))

/-- Matcher for the classifier regex `\x7bInsert\(H003\s+TagHeader\)\x7d`. -/
def matchH003 (cs : List Char) : Bool :=
  (("\x7bInsert(H003").data).isPrefixOf cs && h003Tail (cs.drop (("\x7bInsert(H003").data).length)

/-- The single-space join of all paragraph text fields. -/
def allParagraphText (paragraphs : List ParaData) : List Char :=
  List.intercalate ((" ").data) (paragraphs.map (fun p => p.text))

/-- Embeds `detect_document_type`: join all paragraph texts with a single space and
test the ordered pattern list, returning the label of the first match. -/
def detect_document_type (paragraphs : List ParaData) : List Char :=
  let all := allParagraphText paragraphs
  if (firstMatch matchH003 all).isSome then ("H003").data
  else if containsSub (("Notice of Intention to Foreclose").data) all then ("BR010").data
  else if containsSub (("Notice of Default and Right to Cure").data) all then ("BR017").data
  else if containsSub (("Privacy Policy").data) all || containsSub (("FACTS").data) all then
    ("PRIVACY").data
  else if containsSub (("maturity date").data) all || containsSub (("payoff statement").data) all then
    ("SL106").data
  else ("GENERIC").data

/-! ### HTML renderer -/

/-- The `font_sizes` list of `generate_formatted_html`: the sizes of the runs
whose `fontSize` is truthy (present and non-empty). -/
def fontSizesOf (runs : List RunData) : List (List Char) :=
  runs.filterMap (fun r =>
    match r.fontSize with
    | some s => if s.isEmpty then none else some s
    | none => none)

/-- The `div_attrs` list: a `text-align` entry when the alignment differs
from `left`, and a `font-size` entry when the truthy run sizes are non-empty
and all equal (`font_sizes and len(set(font_sizes)) == 1`, with
`len(set(l))` embedded as `l.dedup.length`). -/
def divAttrsOf (p : ParaData) : List (List Char) :=
  (if p.alignment ≠ ("left").data then [("text-align: ").data ++ p.alignment] else [])
  ++ (let fs := fontSizesOf p.runs
      if !fs.isEmpty && fs.dedup.length == 1 then [("font-size: ").data ++ fs.headI]
      else [])

/-- The rendered text of one run (`process_text_with_formatting` loop body):
empty-text runs are skipped; `<b>`, `<u>`, `<i>` wrap innermost-first, and a
truthy run font size wraps the whole run in a `<span>`. -/
def renderRun (r : RunData) : List Char :=
  if r.text.isEmpty then []
  else
    let t := r.text
    let t := if r.bold then ("<b>").data ++ t ++ ("</b>").data else t
    let t := if r.underline then ("<u>").data ++ t ++ ("</u>").data else t
    let t := if r.italic then ("<i>").data ++ t ++ ("</i>").data else t
    match r.fontSize with
    | some s =>
      if s.isEmpty then t
      else ("<span style=\"font-size: ").data ++ s ++ ("\">").data ++ t ++ ("</span>").data
    | none => t

/-- Embeds `process_text_with_formatting`. -/
def process_text_with_formatting (runs : List RunData) : List Char :=
  (runs.map renderRun).flatten

/-- The `<div ...>...</div>` block of one paragraph in `generate_formatted_html`. -/
def renderParagraph (p : ParaData) : List Char :=
  let attrs := divAttrsOf p
  let style :=
    if attrs.isEmpty then ([] : List Char)
    else (" style=\"").data ++ List.intercalate (("; ").data) attrs ++ ("\"").data
  ("<div").data ++ style ++ (">").data ++ process_text_with_formatting p.runs ++ ("</div>").data

/-- Embeds `generate_formatted_html`: paragraphs whose stripped text is empty are
skipped, the remaining blocks are joined with the `\n<br>\n` marker.  The
`tables` and `documentType` arguments are accepted but never used by the
body, exactly as in the source. -/
def generate_formatted_html (paragraphs : List ParaData) (tables : List TableData)
    (documentType : List Char) : List Char :=
  List.intercalate (("\n<br>\n").data)
    ((paragraphs.filter (fun p => !(pyStrip p.text).isEmpty)).map renderParagraph)
/-- The literal `(find, replace)` table of `simple_field_cleanup` (source list `replacements`), in source order. -/
def simpleFieldReplacements : List (List Char × List Char) := [
  ((("<div>\x7b[tagHeader]\x7d(Company Address Line 1)</div>").data), (("<div>\x7b[tagHeader]\x7d</div>").data)),
  ((("<div>\x7b[tagHeader]\x7d(Company Address Line 2)</div>").data), (("<div>\x7b[tagHeader]\x7d</div>").data)),
  ((("<div>\x7b[tagHeader]\x7d(Company Address Line 3)</div>").data), (("<div>\x7b[tagHeader]\x7d</div>").data)),
  ((("<div>\x7b[L001]\x7d (System Date)</div>").data), (("<div>\x7b[L001]\x7d</div>").data)),
  ((("<div>\x7b[M558]\x7d(New Bill Line 1/ Mortgagor Name)</div>").data), (("<div>\x7b[M558]\x7d</div>").data)),
  ((("<div>\x7b[M559]\x7d (New Bill Line 2/Second Mortgagor)</div>").data), (("<div>\x7b[M559]\x7d</div>").data)),
  ((("<div>\x7b[M560]\x7d (New Bill Line 3/Third Mortgagor)</div>").data), (("<div>\x7b[M560]\x7d</div>").data)),
  ((("<div>\x7b[M561]\x7d (Additional Mailing Address)</div>").data), (("<div>\x7b[M561]\x7d</div>").data)),
  ((("<div>\x7b[M562]\x7d (Mailing Street Address)</div>").data), (("<div>\x7b[M562]\x7d</div>").data)),
  ((("<div>\x7b[M594]\x7d(Loan Number – No Dash)</div>").data), (("<div>\x7b[M594]\x7d</div>").data)),
  ((("<div>\x7b[M567]\x7d (Property Line 1/Street Address)</div>").data), (("<div>\x7b[M567]\x7d</div>").data)),
  ((("<div>\x7b[M583]\x7d(New Property Unit Number)</div>").data), (("<div>\x7b[M583]\x7d</div>").data)),
  ((("<div>\x7b[M568]\x7d (New Property Line 2/City State and Zip Code)</div>").data), (("<div>\x7b[M568]\x7d</div>").data)),
  ((("<div>\x7b[M590]\x7d(Delinquent Payment Count)</div>").data), (("<div>\x7b[M590]\x7d</div>").data)),
  ((("<div>\x7b[U027]\x7d (Late Fee Date)</div>").data), (("<div>\x7b[U027]\x7d</div>").data)),
  ((("<div>\x7b[L008E8]\x7d (Last Day This Month)</div>").data), (("<div>\x7b[L008E8]\x7d</div>").data)),
  ((("<div>\x7b[L011E8]\x7d (Today Plus 30 Days)</div>").data), (("<div>\x7b[L011E8]\x7d</div>").data)),
  ((("<div>\x7b[M956]\x7d (Foreign Address Indicator = 1)</div>").data), (("<div>\x7b[M956]\x7d</div>").data)),
  ((("<div>\x7b[M928]\x7d (Foreign Country Code)</div>").data), (("<div>\x7b[M928]\x7d</div>").data)),
  ((("<div>\x7b[M929]\x7d (Foreign Postal Code)</div>").data), (("<div>\x7b[M929]\x7d</div>").data)),
  ((("<div>\x7b[U026]\x7d(Late Charge Fee)</div>").data), (("<div>\x7b[U026]\x7d</div>").data)),
  ((("<div>\x7b[M591E6]\x7d(Delinquent Balance)</div>").data), (("<div>\x7b[M591E6]\x7d</div>").data)),
  ((("<div>\x7b[C001E6]\x7d(Total Amount Due</div>").data), (("<div>\x7b[C001E6]\x7d</div>").data)),
  ((("<div>\x7b[M585E6]\x7d(Mtgr Rec Corp Adv Bal</div>").data), (("<div>\x7b[M585E6]\x7d</div>").data)),
  ((("<div>\x7b[M029E6]\x7d(Total Monthly Payment</div>").data), (("<div>\x7b[M029E6]\x7d</div>").data)),
  ((("<div>\x7b[M013E6]\x7d(Suspense Balance</div>").data), (("<div>\x7b[M013E6]\x7d</div>").data)),
  ((("<div>\x7b[M015E6]\x7d(Accrued Late Charge Bal)</div>").data), (("<div>\x7b[M015E6]\x7d</div>").data)),
  ((("<div>\x7b[M593E6]\x7d(NSF Balance</div>").data), (("<div>\x7b[M593E6]\x7d</div>").data)),
  ((("<div>\x7b[C004E6]\x7d(Other Fees)</div>").data), (("<div>\x7b[C004E6]\x7d</div>").data)),
  ((("<div><b>Mortgage Loan No:\x7b[M594]\x7d(Loan Number – No Dash)</b></div>").data), (("<div><b>Mortgage Loan No:\x7b[M594]\x7d</b></div>").data)),
  ((("<div><b>Property Address:\x7b[M567]\x7d (Property Line 1/Street Address)</b></div>").data), (("<div><b>Property Address:\x7b[M567]\x7d</b></div>").data)),
  ((("<div><b>                                \t\x7b[M583]\x7d(New Property Unit Number)</b></div>").data), (("<div><b>                                \t\x7b[M583]\x7d</b></div>").data)),
  ((("<div><b>                            \t\t\x7b[M568]\x7d(New Property Line 2/City State and Zip Code)</b></div>").data), (("<div><b>                            \t\t\x7b[M568]\x7d</b></div>").data)),
  ((("<div><u><b>Number of Payments Due:</u><u></u>\x7b[M590]\x7d(Delinquent Payment Count)</div>").data), (("<div><u><b>Number of Payments Due:</u><u></u>\x7b[M590]\x7d</div>").data)),
  ((("<div><u><b>Net Payment Amount</u><u><b>$</u>\x7b[M591E6]\x7d(Delinquent Balance)</div>").data), (("<div><u><b>Net Payment Amount</u><u><b>$</u>\x7b[M591E6]\x7d</div>").data)),
  ((("<div><u><b>Unpaid Late Charges</u><u><b>:</u><u></u><b>$\x7b[M015E6]\x7d(Accrued Late Charge Bal)</b></div>").data), (("<div><u><b>Unpaid Late Charges</u><u><b>:</u><u></u><b>$\x7b[M015E6]\x7d</b></div>").data)),
  ((("<div><u><b>NSF & Other Fees: $</u><b>\x7b[M593E6]\x7d+ <b>\x7b[C004E6]\x7d(NSF Balance + Other Fees)</b></div>").data), (("<div><u><b>NSF & Other Fees: $</u><b>\x7b[M593E6]\x7d+ <b>\x7b[C004E6]\x7d</b></div>").data)),
  ((("<div><u><b>Unapplied/Suspense Funds:</u><b>$\x7b[M013E6]\x7d(Suspense Balance)</b></div>").data), (("<div><u><b>Unapplied/Suspense Funds:</u><b>$\x7b[M013E6]\x7d</b></div>").data)),
  ((("\x7b[tagHeader]\x7d(Company Address Line 1)").data), (("\x7b[tagHeader]\x7d").data)),
  ((("\x7b[tagHeader]\x7d(Company Address Line 2)").data), (("\x7b[tagHeader]\x7d").data)),
  ((("\x7b[tagHeader]\x7d(Company Address Line 3)").data), (("\x7b[tagHeader]\x7d").data)),
  ((("\x7b[L001]\x7d (System Date)").data), (("\x7b[L001]\x7d").data)),
  ((("\x7b[M558]\x7d(New Bill Line 1/ Mortgagor Name)").data), (("\x7b[M558]\x7d").data)),
  ((("\x7b[M559]\x7d (New Bill Line 2/Second Mortgagor)").data), (("\x7b[M559]\x7d").data)),
  ((("\x7b[M560]\x7d (New Bill Line 3/Third Mortgagor)").data), (("\x7b[M560]\x7d").data)),
  ((("\x7b[M561]\x7d (Additional Mailing Address)").data), (("\x7b[M561]\x7d").data)),
  ((("\x7b[M562]\x7d (Mailing Street Address)").data), (("\x7b[M562]\x7d").data)),
  ((("\x7b[M594]\x7d(Loan Number – No Dash)").data), (("\x7b[M594]\x7d").data)),
  ((("\x7b[M567]\x7d (Property Line 1/Street Address)").data), (("\x7b[M567]\x7d").data)),
  ((("\x7b[M583]\x7d(New Property Unit Number)").data), (("\x7b[M583]\x7d").data)),
  ((("\x7b[M568]\x7d (New Property Line 2/City State and Zip Code)").data), (("\x7b[M568]\x7d").data)),
  ((("\x7b[M590]\x7d(Delinquent Payment Count)").data), (("\x7b[M590]\x7d").data)),
  ((("\x7b[U027]\x7d (Late Fee Date)").data), (("\x7b[U027]\x7d").data)),
  ((("\x7b[L008E8]\x7d (Last Day This Month)").data), (("\x7b[L008E8]\x7d").data)),
  ((("\x7b[L011E8]\x7d (Today Plus 30 Days)").data), (("\x7b[L011E8]\x7d").data)),
  ((("\x7b[M956]\x7d (Foreign Address Indicator = 1)").data), (("\x7b[M956]\x7d").data)),
  ((("\x7b[M928]\x7d (Foreign Country Code)").data), (("\x7b[M928]\x7d").data)),
  ((("\x7b[M929]\x7d (Foreign Postal Code)").data), (("\x7b[M929]\x7d").data)),
  ((("\x7b[U026]\x7d(Late Charge Fee)").data), (("\x7b[U026]\x7d").data)),
  ((("\x7b[M591E6]\x7d(Delinquent Balance)").data), (("\x7b[M591E6]\x7d").data)),
  ((("\x7b[C001E6]\x7d(Total Amount Due").data), (("\x7b[C001E6]\x7d").data)),
  ((("\x7b[M585E6]\x7d(Mtgr Rec Corp Adv Bal").data), (("\x7b[M585E6]\x7d").data)),
  ((("\x7b[M029E6]\x7d(Total Monthly Payment").data), (("\x7b[M029E6]\x7d").data)),
  ((("\x7b[M013E6]\x7d(Suspense Balance").data), (("\x7b[M013E6]\x7d").data)),
  ((("\x7b[M015E6]\x7d(Accrued Late Charge Bal)").data), (("\x7b[M015E6]\x7d").data)),
  ((("\x7b[M593E6]\x7d(NSF Balance").data), (("\x7b[M593E6]\x7d").data)),
  ((("\x7b[C004E6]\x7d(Other Fees)").data), (("\x7b[C004E6]\x7d").data)),
  ((("<div style=\"text-align: justify\"><b>\x7b[H002]\x7d </b>(Company Address Line 1)</div>").data), (("<div style=\"text-align: justify\"><b>\x7b[H002]\x7d </b></div>").data)),
  ((("<div style=\"text-align: justify\"><b>\x7b[H003]\x7d </b>(Company Address Line 2)</div>").data), (("<div style=\"text-align: justify\"><b>\x7b[H003]\x7d </b></div>").data)),
  ((("<div style=\"text-align: justify\"><b>\x7b[H004]\x7d </b>(Company Address Line 3)</div>").data), (("<div style=\"text-align: justify\"><b>\x7b[H004]\x7d </b></div>").data)),
  ((("<div style=\"text-align: justify\"><b>\x7b[L001E8]\x7d</b> (System Date)</div>").data), (("<div style=\"text-align: justify\"><b>\x7b[L001E8]\x7d</b></div>").data)),
  ((("<div style=\"text-align: justify\"><b>\x7b[M558]\x7d </b>(New Bill Line 1/ Mortgagor Name)</div>").data), (("<div style=\"text-align: justify\"><b>\x7b[M558]\x7d </b></div>").data)),
  ((("<div style=\"text-align: justify\"><b>\x7b[M559]\x7d</b> (New Bill Line 2/Second Mortgagor)</div>").data), (("<div style=\"text-align: justify\"><b>\x7b[M559]\x7d</b></div>").data)),
  ((("<div style=\"text-align: justify\"><b>\x7b[M560]\x7d</b> (New Bill Line 3/Third Mortgagor)</div>").data), (("<div style=\"text-align: justify\"><b>\x7b[M560]\x7d</b></div>").data)),
  ((("<div style=\"text-align: justify\"><b>\x7b[M561]\x7d</b> (Additional Mailing Address)</div>").data), (("<div style=\"text-align: justify\"><b>\x7b[M561]\x7d</b></div>").data)),
  ((("<div style=\"text-align: justify\"><b>\x7b[M562]\x7d</b> (Mailing Street Address)</div>").data), (("<div style=\"text-align: justify\"><b>\x7b[M562]\x7d</b></div>").data)),
  ((("<div style=\"text-align: justify\"><b>\x7b[M563]\x7d \x7b[M564]\x7d \x7b[M565]\x7d </b><b>\x7b[M566]\x7d</b> (Mailing City), (State), (5-Digit Zip), (4-Digit Zip)</div>").data), (("<div style=\"text-align: justify\"><b>\x7b[M563]\x7d \x7b[M564]\x7d \x7b[M565]\x7d </b><b>\x7b[M566]\x7d</b></div>").data)),
  ((("<div style=\"text-align: justify\"><b>\x7b[M956]\x7d</b> (Foreign Address Indicator = 1)</div>").data), (("<div style=\"text-align: justify\"><b>\x7b[M956]\x7d</b></div>").data)),
  ((("<div style=\"text-align: justify\"><b>\x7b[M928]\x7d</b> (Foreign Country Code)</div>").data), (("<div style=\"text-align: justify\"><b>\x7b[M928]\x7d</b></div>").data)),
  ((("<div style=\"text-align: justify; font-size: 11pt\"><b>\x7b[M929]\x7d</b> (Foreign Postal Code)</div>").data), (("<div style=\"text-align: justify; font-size: 11pt\"><b>\x7b[M929]\x7d</b></div>").data)),
  ((("<div><b>Mortgage Loan No:</b><b>\t</b><b>\x7b</b><b>[M594]</b><b>\x7d</b><b> </b>(Loan Number – No Dash)</div>").data), (("<div><b>Mortgage Loan No:</b><b>\t</b><b>\x7b</b><b>[M594]</b><b>\x7d</b></div>").data)),
  ((("<div><b>Property Address:</b><b>\t</b><b>\x7b[M567]\x7d</b> (Property Line 1/Street Address)</div>").data), (("<div><b>Property Address:</b><b>\t</b><b>\x7b[M567]\x7d</b></div>").data)),
  ((("<div><b>                                </b><b>\t</b><b>\x7b[M583]\x7d </b>(New Property Unit Number)</div>").data), (("<div><b>                                </b><b>\t</b><b>\x7b[M583]\x7d </b></div>").data)),
  ((("<div><b>                            </b><b>\t</b><b>\t</b><b>\x7b[M568]\x7d </b>(New Property Line 2/City State and Zip Code)</div>").data), (("<div><b>                            </b><b>\t</b><b>\t</b><b>\x7b[M568]\x7d </b></div>").data)),
  ((("<div><u><b>Number of Payments Due:</b></u><u><b> </b></u><b>\x7b[M590]\x7d</b><b> </b>(Delinquent Payment Count)</div>").data), (("<div><u><b>Number of Payments Due:</b></u><u><b> </b></u><b>\x7b[M590]\x7d</b></div>").data)),
  ((("<div><u><b>Net Payment Amount </b></u><u><b>$</b></u><b>\x7b[M591E6]\x7d</b><b> </b>(Delinquent Balance)</div>").data), (("<div><u><b>Net Payment Amount </b></u><u><b>$</b></u><b>\x7b[M591E6]\x7d</b></div>").data)),
  ((("<div><u><b>Unpaid Late Charges</b></u><u><b>:</b></u><u><b> </b></u><b>$</b><b>\x7b[M015E6]\x7d</b><b> </b>(Accrued Late Charge Bal)</div>").data), (("<div><u><b>Unpaid Late Charges</b></u><u><b>:</b></u><u><b> </b></u><b>$</b><b>\x7b[M015E6]\x7d</b></div>").data)),
  ((("<div><u><b>NSF & Other Fees: $</b></u><b>\x7b[M593E6]\x7d </b>+ <b>\x7b[C004E6]\x7d </b>(NSF Balance + Other Fees)</div>").data), (("<div><u><b>NSF & Other Fees: $</b></u><b>\x7b[M593E6]\x7d </b>+ <b>\x7b[C004E6]\x7d </b></div>").data)),
  ((("<div><u><b>Unapplied/Suspense Funds: </b></u><b>$</b><b>\x7b[M013E6]\x7d </b>(Suspense Balance)</div>").data), (("<div><u><b>Unapplied/Suspense Funds: </b></u><b>$</b><b>\x7b[M013E6]\x7d </b></div>").data)),
  ((("\x7b[CSPhoneNumber]\x7d").data), (("\x7b[plsMatrix.CSPhoneNumber]\x7d").data)),
  ((("\x7b[SPOCContactEmail]\x7d").data), (("\x7b[plsMatrix.SPOCContactEmail]\x7d").data)),
  ((("\x7b[PayoffAddr1]\x7d").data), (("\x7b[plsMatrix.PayoffAddr1]\x7d").data)),
  ((("\x7b[PayoffAddr2]\x7d").data), (("\x7b[plsMatrix.PayoffAddr2]\x7d").data)),
  ((("\x7b[CompanyShortName]\x7d").data), (("\x7b[plsMatrix.CompanyShortName]\x7d").data)),
  ((("\x7b[CompanyLongName]\x7d").data), (("\x7b[plsMatrix.CompanyLongName]\x7d").data)),
  (((" (Company Address Line 1)").data), (("").data)),
  (((" (Company Address Line 2)").data), (("").data)),
  (((" (Company Address Line 3)").data), (("").data)),
  (((" (System Date)").data), (("").data)),
  (((" (New Bill Line 1/ Mortgagor Name)").data), (("").data)),
  (((" (New Bill Line 2/Second Mortgagor)").data), (("").data)),
  (((" (New Bill Line 3/Third Mortgagor)").data), (("").data)),
  (((" (Additional Mailing Address)").data), (("").data)),
  (((" (Mailing Street Address)").data), (("").data)),
  (((" (Mailing City), (State), (5-Digit Zip), (4-Digit Zip)").data), (("").data)),
  (((" (Foreign Address Indicator = 1)").data), (("").data)),
  (((" (Foreign Country Code)").data), (("").data)),
  (((" (Foreign Postal Code)").data), (("").data)),
  (((" (Loan Number – No Dash)").data), (("").data)),
  (((" (Property Line 1/Street Address)").data), (("").data)),
  (((" (New Property Unit Number)").data), (("").data)),
  (((" (New Property Line 2/City State and Zip Code)").data), (("").data)),
  (((" (Delinquent Balance)").data), (("").data)),
  (((" (Late Charge Fee)").data), (("").data)),
  (((" (Late Fee Date)").data), (("").data)),
  (((" (Last Day This Month)").data), (("").data)),
  (((" (Today Plus 30 Days)").data), (("").data)),
  (((" (Total Amount Due + Mtgr Rec Corp Adv Bal + Total Monthly Payment - Suspense Balance)").data), (("").data)),
  (((" (Delinquent Payment Count)").data), (("").data)),
  (((" (Accrued Late Charge Bal)").data), (("").data)),
  (((" (NSF Balance + Other Fees)").data), (("").data)),
  (((" (Suspense Balance)").data), (("").data))
]

/-- The literal table of `fix_payment_information_cleanup` (source list `replacements`). -/
def paymentInfoReplacements : List (List Char × List Char) := [
  (((" (Delinquent Balance)").data), (("").data)),
  (((" (Late Charge Fee)").data), (("").data)),
  (((" (Late Fee Date)").data), (("").data)),
  (((" (Last Day This Month)").data), (("").data)),
  (((" (Today Plus 30 Days)").data), (("").data)),
  (((" (Total Amount Due + Mtgr Rec Corp Adv Bal + Total Monthly Payment - Suspense Balance)").data), (("").data)),
  (((" (Total Amount Due + Mtgr Rec Corp Adv Bal - Suspense Balance)").data), (("").data)),
  (((" (Mortgagor Name)").data), (("").data)),
  (((" (Second Mortgagor)").data), (("").data)),
  (((" (Mailing City), (State), (5-Digit Zip)").data), (("").data)),
  (((" (4-Digit Zip)").data), (("").data)),
  (((" (Foreign Address Indicator = 1)").data), (("").data)),
  (((" (Foreign Country Code)").data), (("").data)),
  (((" (Foreign Postal Code)").data), (("").data)),
  (((" (Loan Number – No Dash)").data), (("").data)),
  (((" (Property Line 1/Street Address)").data), (("").data)),
  (((" (New Property Unit Number)").data), (("").data)),
  (((" (New Property Line 2/City State and Zip Code)").data), (("").data)),
  (((" (Additional Mailing Address)").data), (("").data)),
  (((" (Mailing Street Address)").data), (("").data)),
  (((" (Mailing City), (State), (5-Digit Zip), (4-Digit Zip)").data), (("").data)),
  (((" (New Bill Line 1/ Mortgagor Name)").data), (("").data)),
  (((" (New Bill Line 2/Second Mortgagor)").data), (("").data)),
  (((" (New Bill Line 3/Third Mortgagor)").data), (("").data)),
  (((" (System Date)").data), (("").data)),
  (((" (Company Address Line 1)").data), (("").data)),
  (((" (Company Address Line 2)").data), (("").data)),
  (((" (Company Address Line 3)").data), (("").data)),
  (((" (Delinquent Payment Count)").data), (("").data)),
  (((" (Accrued Late Charge Bal)").data), (("").data)),
  (((" (NSF Balance + Other Fees)").data), (("").data)),
  (((" (Suspense Balance)").data), (("").data))
]

/-- The literal table of `fix_remaining_patterns` (source list `replacements`). -/
def remainingReplacements : List (List Char × List Char) := [
  (((" (Delinquent Balance)").data), (("").data)),
  (((" (Late Charge Fee)").data), (("").data)),
  (((" (Late Fee Date)").data), (("").data)),
  (((" (Last Day This Month)").data), (("").data)),
  (((" (Today Plus 30 Days)").data), (("").data)),
  (((" (Total Amount Due + Mtgr Rec Corp Adv Bal + Total Monthly Payment - Suspense Balance)").data), (("").data)),
  (((" (Total Amount Due + Mtgr Rec Corp Adv Bal - Suspense Balance)").data), (("").data)),
  (((" (Mortgagor Name)").data), (("").data)),
  (((" (Second Mortgagor)").data), (("").data)),
  (((" (Mailing City), (State), (5-Digit Zip)").data), (("").data)),
  (((" (4-Digit Zip)").data), (("").data)),
  ((("<span style=\"font-size: 10pt\">(Mailing City), (State), (5-Digit Zip)</span><span style=\"font-size: 10pt\">,</span>").data), (("").data)),
  ((("<span style=\"font-size: 10pt\">, (4-Digit Zip)</span>").data), (("").data)),
  ((("<b>\x7b</b><b>[M558]\x7d</b> and <b>\x7b</b><b>[M559]\x7d</b>").data), (("\x7b[M558]\x7d and \x7b[M559]\x7d").data)),
  ((("<b>\x7b</b><b>[M594]</b><b>\x7d</b>").data), (("\x7b[M594]\x7d").data)),
  ((("<div style=\"text-align: justify\">(see \"Additional Borrowers/Co-Borrowers\" on Letter Library Business Rules for Additional Addresses in BKFS) </div>").data), (("").data)),
  ((("<div style=\"text-align: justify\">Co-borrower Name 1</div>").data), (("").data)),
  ((("<div style=\"text-align: justify\">Co-borrower Name 2</div>").data), (("").data)),
  ((("<div style=\"text-align: justify\">Co-borrower Address Line 1</div>").data), (("").data)),
  ((("<div style=\"text-align: justify\">Co-borrower Address Line 2</div>").data), (("").data)),
  ((("<div style=\"text-align: justify\">Co-borrower Street</div>").data), (("").data)),
  ((("<div style=\"text-align: justify\">Co-borrower City, Co-borrower State, Co-borrower Zip Code, Co-borrower Zip Code Suffix</div>").data), (("").data)),
  ((("<div style=\"text-align: justify; font-size: 11pt\">(see \"SII Confirmed\" on Letter Library Business Rules for Additional Addresses in BKFS)</div>").data), (("").data)),
  ((("<div style=\"text-align: justify\">Non-borrower Name</div>").data), (("").data)),
  ((("<div style=\"text-align: justify\">Non-borrower Address Line 1</div>").data), (("").data)),
  ((("<div style=\"text-align: justify\">Non-borrower Address Line 2</div>").data), (("").data)),
  ((("<div style=\"text-align: justify\">Non-borrower Address Line 3</div>").data), (("").data)),
  ((("<div style=\"text-align: justify\">Non-borrower Street</div>").data), (("").data)),
  ((("<div style=\"text-align: justify\">(<u><b>\"OR\"</b></u> If <b>\x7b[M956]\x7d</b>)</div>").data), (("").data)),
  ((("<div style=\"text-align: justify\">(see \"Additional Borrowers/Co-Borrowers\" on Letter Library Business Rules for Additional Addresses in BKFS) </div>").data), (("").data)),
  ((("<div style=\"text-align: justify; font-size: 11pt\">(see \"SII Confirmed\" on Letter Library Business Rules for Additional Addresses in BKFS)</div>").data), (("").data)),
  (((" (Delinquent Balance)").data), (("").data)),
  (((" (Late Charge Fee)").data), (("").data)),
  (((" (Late Fee Date)").data), (("").data)),
  (((" (Last Day This Month)").data), (("").data)),
  (((" (Today Plus 30 Days)").data), (("").data)),
  (((" (Total Amount Due + Mtgr Rec Corp Adv Bal + Total Monthly Payment - Suspense Balance)").data), (("").data)),
  (((" (Total Amount Due + Mtgr Rec Corp Adv Bal - Suspense Balance)").data), (("").data)),
  ((("<u><b>Demand Notice expires</b></u> <u><b>\x7b[L011E8]\x7d </b></u><u>(Today Plus 30 Days)</u><u>.</u> <u><b>Total Due: $</b></u><b>\x7b[C001E6]\x7d </b>+ <b>\x7b[M585E6]\x7d</b> – <b>\x7b[M013E6]\x7d</b> (Total Amount Due <b>+</b> Mtgr Rec Corp Adv Bal<b> - </b>Suspense Balance)").data), (("<u><b>Demand Notice expires \x7b[L011E8]\x7d. Total Due: $</b></u><b>\x7b[C001E6]\x7d </b>+ <b>\x7b[M585E6]\x7d</b> – <b>\x7b[M013E6]\x7d</b>").data)),
  ((("<u><b>Number of Payments Due:</b></u> <b>\x7b[M590]\x7d</b>").data), (("<u><b>Number of Payments Due:</b></u> <b>\x7b[M590]\x7d</b>").data)),
  ((("<u><b>Net Payment Amount </b></u><u><b>$</b></u><b>\x7b[M591E6]\x7d</b>").data), (("<u><b>Net Payment Amount:</b></u> <b>$\x7b[M591E6]\x7d</b>").data)),
  ((("<u><b>Unpaid Late Charges</b></u><u><b>:</b></u> <b>$</b><b>\x7b[M015E6]\x7d</b>").data), (("<u><b>Unpaid Late Charges:</b></u> <b>$\x7b[M015E6]\x7d</b>").data)),
  ((("<u><b>NSF & Other Fees: $</b></u><b>\x7b[M593E6]\x7d </b>+ <b>\x7b[C004E6]\x7d </b>").data), (("<u><b>NSF & Other Fees:</b></u> <b>$\x7b[M593E6]\x7d + $\x7b[C004E6]\x7d</b>").data)),
  ((("<u><b>Unapplied/Suspense Funds: </b></u><b>$</b><b>\x7b[M013E6]\x7d </b>").data), (("<u><b>Unapplied/Suspense Funds:</b></u> <b>$\x7b[M013E6]\x7d</b>").data)),
  ((("<b> </b>").data), ((" ").data)),
  ((("<b></b>").data), (("").data)),
  ((("<u><b> </b></u>").data), ((" ").data)),
  ((("<u><b></b></u>").data), (("").data)),
  ((("<u> </u>").data), ((" ").data)),
  ((("<u></u>").data), (("").data))
]

/-- The literal table `payment_transformations` of `transform_to_target_format`. -/
def paymentTransformations : List (List Char × List Char) := [
  ((("$<b>\x7b[M591E6]\x7d</b>").data), (("\x7bMoney(\x7b[M591]\x7d)\x7d").data)),
  ((("$<b>\x7b[U026]\x7d </b>").data), (("\x7bMoney(\x7b[U026]\x7d)\x7d").data)),
  ((("$<b>\x7b[C001E6]\x7d </b>+ <b>\x7b[M585E6]\x7d</b><b> + \x7b[M029E6]\x7d</b> – <b>\x7b[M013E6]\x7d</b>").data), (("\x7bMath(\x7b[C001]\x7d + \x7b[M585]\x7d + \x7b[M029]\x7d - \x7b[M013]\x7d|Money)\x7d").data)),
  ((("<b>\x7b[C001E6]\x7d </b>+ <b>\x7b[M585E6]\x7d</b> – <b>\x7b[M013E6]\x7d</b>").data), (("\x7bMath(\x7b[C001]\x7d + \x7b[M585]\x7d - \x7b[M013]\x7d|Money)\x7d").data)),
  ((("<b>$\x7b[M591E6]\x7d</b>").data), (("\x7bMoney(\x7b[M591]\x7d)\x7d").data)),
  ((("<b>$\x7b[M015E6]\x7d</b>").data), (("\x7bMoney(\x7b[M015]\x7d)\x7d").data)),
  ((("<b>$\x7b[M593E6]\x7d + $\x7b[C004E6]\x7d</b>").data), (("\x7bMath(\x7b[M593]\x7d + \x7b[C004]\x7d|Money)\x7d").data)),
  ((("<b>$\x7b[M013E6]\x7d</b>").data), (("\x7bMoney(\x7b[M013]\x7d)\x7d").data)),
  ((("\x7b[L001E8]\x7d").data), (("\x7b[L001]\x7d").data)),
  ((("\x7b[U027]\x7d").data), (("\x7b[U027]\x7d").data)),
  ((("\x7b[L008E8]\x7d").data), (("\x7b[L008]\x7d").data)),
  ((("\x7b[L011E8]\x7d").data), (("\x7b[L011]\x7d").data)),
  ((("\x7b[M590]\x7d").data), (("\x7b[M590]\x7d").data)),
  (((" (Delinquent Balance)").data), (("").data)),
  (((" (Late Charge Fee)").data), (("").data)),
  (((" (Today Plus 30 Days)").data), (("").data)),
  (((" (Total Amount Due + Mtgr Rec Corp Adv Bal + Total Monthly Payment - Suspense Balance)").data), (("").data)),
  (((" (Total Amount Due + Mtgr Rec Corp Adv Bal - Suspense Balance)").data), (("").data)),
  ((("\x7bMoney(\x7b[U026]\x7d)\x7d(Late Charge Fee)").data), (("\x7bMoney(\x7b[U026]\x7d)\x7d").data)),
  ((("\x7bMath(\x7b[C001]\x7d + \x7b[M585]\x7d + \x7b[M029]\x7d - \x7b[M013]\x7d|Money)\x7d (Total Amount Due <b>+</b> Mtgr Rec Corp Adv Bal + Total Monthly Payment <b>- </b>Suspense Balance)").data), (("\x7bMath(\x7b[C001]\x7d + \x7b[M585]\x7d + \x7b[M029]\x7d - \x7b[M013]\x7d|Money)\x7d").data)),
  ((("\x7bMath(\x7b[C001]\x7d + \x7b[M585]\x7d - \x7b[M013]\x7d|Money)\x7d (Total Amount Due <b>+</b> Mtgr Rec Corp Adv Bal<b> - </b>Suspense Balance)").data), (("\x7bMath(\x7b[C001]\x7d + \x7b[M585]\x7d - \x7b[M013]\x7d|Money)\x7d").data)),
  ((("<b>$\x7b[M015E6]\x7d</b>").data), (("\x7bMoney(\x7b[M015]\x7d)\x7d").data)),
  ((("\x7b[M015E6]\x7d").data), (("\x7bMoney(\x7b[M015]\x7d)\x7d").data)),
  ((("<u><b>Total Due: $</b></u>\x7bMath(\x7b[C001]\x7d + \x7b[M585]\x7d - \x7b[M013]\x7d|Money)\x7d (Total Amount Due <b>+</b> Mtgr Rec Corp Adv Bal<b> - </b>Suspense Balance)").data), (("<b>Total Due: \x7bMath(\x7b[C001]\x7d + \x7b[M585]\x7d - \x7b[M013]\x7d|Money)\x7d</b>").data)),
  ((("<u><b>Demand Notice expires</b></u> <u><b>\x7b[L011]\x7d </b></u><u>(Today Plus 30 Days)</u><u>.</u>").data), (("<b>Demand Notice expires \x7b[L011]\x7d. Total Due: \x7bMath(\x7b[C001]\x7d + \x7b[M585]\x7d - \x7b[M013]\x7d|Money)\x7d</b>").data)),
  ((("<b>Demand Notice expires \x7b[L011]\x7d. Total Due: \x7bMath(\x7b[C001]\x7d + \x7b[M585]\x7d - \x7b[M013]\x7d|Money)\x7d</b> <u><b>Total Due: $</b></u>\x7bMath(\x7b[C001]\x7d + \x7b[M585]\x7d - \x7b[M013]\x7d|Money)\x7d").data), (("<b>Demand Notice expires \x7b[L011]\x7d. Total Due: \x7bMath(\x7b[C001]\x7d + \x7b[M585]\x7d - \x7b[M013]\x7d|Money)\x7d</b>").data)),
  ((("<u><b>Unpaid Late Charges</b></u><u><b>:</b></u> <b>$</b><b>\x7bMoney(\x7b[M015]\x7d)\x7d</b>").data), (("<u><b>Unpaid Late Charges:</b></u> \x7bMoney(\x7b[M015]\x7d)\x7d").data)),
  ((("<u><b>Number of Payments Due:</b></u>").data), (("<b><u>Number of Payments Due:</u></b>").data)),
  ((("<u><b>Net Payment Amount:</b></u>").data), (("<b><u>Net Payment Amount:</u></b>").data)),
  ((("<u><b>Unpaid Late Charges:</b></u>").data), (("<b><u>Unpaid Late Charges:</u></b>").data)),
  ((("<u><b>NSF & Other Fees:</b></u>").data), (("<b><u>NSF &amp; Other Fees:</u></b>").data)),
  ((("<u><b>Unapplied/Suspense Funds:</b></u>").data), (("<b><u>Unapplied/Suspense Funds:</u></b>").data)),
  ((("<div><b><u>Number of Payments Due:</u></b> \x7b[M590]\x7d</div>\n<br>\n").data), (("<div><b><u>Number of Payments Due:</u></b> \x7b[M590]\x7d</div>\n").data)),
  ((("<div><b><u>Net Payment Amount:</u></b> \x7bMoney(\x7b[M591]\x7d)\x7d</div>\n<br>\n").data), (("<div><b><u>Net Payment Amount:</u></b> \x7bMoney(\x7b[M591]\x7d)\x7d</div>\n").data)),
  ((("<div><b><u>Unpaid Late Charges:</u></b> \x7bMoney(\x7b[M015]\x7d)\x7d</div>\n<br>\n").data), (("<div><b><u>Unpaid Late Charges:</u></b> \x7bMoney(\x7b[M015]\x7d)\x7d</div>\n").data)),
  ((("<div><b><u>NSF &amp; Other Fees:</u></b> \x7bMath(\x7b[M593]\x7d + \x7b[C004]\x7d|Money)\x7d</div>\n<br>\n").data), (("<div><b><u>NSF &amp; Other Fees:</u></b> \x7bMath(\x7b[M593]\x7d + \x7b[C004]\x7d|Money)\x7d</div>\n").data)),
  ((("<div><b><u>Number of Payments Due:</u></b> \x7b[M590]\x7d</div>\n<br>\n<div><b><u>Net Payment Amount:</u></b> \x7bMoney(\x7b[M591]\x7d)\x7d</div>\n<br>\n<div><b><u>Unpaid Late Charges:</u></b> \x7bMoney(\x7b[M015]\x7d)\x7d</div>\n<br>\n<div><b><u>NSF &amp; Other Fees:</u></b> \x7bMath(\x7b[M593]\x7d + \x7b[C004]\x7d|Money)\x7d</div>\n<br>\n<div><b><u>Unapplied/Suspense Funds:</u></b> \x7bMoney(\x7b[M013]\x7d)\x7d</div>").data), (("<div><b><u>Number of Payments Due:</u></b> \x7b[M590]\x7d</div>\n<div><b><u>Net Payment Amount:</u></b> \x7bMoney(\x7b[M591]\x7d)\x7d</div>\n<div><b><u>Unpaid Late Charges:</u></b> \x7bMoney(\x7b[M015]\x7d)\x7d</div>\n<div><b><u>NSF &amp; Other Fees:</u></b> \x7bMath(\x7b[M593]\x7d + \x7b[C004]\x7d|Money)\x7d</div>\n<div><b><u>Unapplied/Suspense Funds:</u></b> \x7bMoney(\x7b[M013]\x7d)\x7d</div>").data)),
  ((("<b>\x7b[U027]\x7d</b>").data), (("\x7b[U027]\x7d").data)),
  ((("<b>\x7b[L008]\x7d</b>").data), (("\x7b[L008]\x7d").data)),
  ((("<b>\x7b[L011]\x7d</b>").data), (("\x7b[L011]\x7d").data)),
  ((("<b>\x7b[M590]\x7d</b>").data), (("\x7b[M590]\x7d").data)),
  ((("which represents three (3) payments past due").data), (("which represents the past due amount").data)),
  ((("<div style=\"text-align: justify\">There may be homeownership assistance options available, and you can reach a \x7b[plsMatrix.CompanyShortName]\x7d Loss Mitigation Specialist at \x7b[plsMatrix.CSPhoneNumber]\x7d to discuss these options.</div>").data), (("<div><table width=\"100%\" style=\"border-collapse: collapse\"><tbody><tr>\n  <td width=\"3%\" valign=\"top\" style=\"text-align: center\">•</td>\n  <td>There may be homeownership assistance options available, and you can reach a \x7b[plsMatrix.CompanyShortName]\x7d Loss Mitigation Specialist at \x7b[plsMatrix.CSPhoneNumber]\x7d to discuss these options.</td>\n  </tr><tr>\n  <td width=\"3%\" valign=\"top\" style=\"text-align: center\">•</td>\n  <td>Avoid Foreclosure Scams: Do your research, make sure you are working with a reputable company. http://www.consumer.ftc.gov/articles/0100-mortgage-relief-scams</td>\n</tr></tbody></table></div>").data)),
  ((("<div style=\"text-align: justify\">Avoid Foreclosure Scams: Do your research, make sure you are working with a reputable company. </div>").data), (("").data)),
  ((("<div style=\"text-align: justify\">Avoid Foreclosure Scams: Do your research, make sure you are working with a reputable company.</div>").data), (("").data)),
  ((("<div style=\"text-align: justify\">Avoid Foreclosure Scams: Do your research, make sure you are working with a reputable company.\n</div>").data), (("").data)),
  ((("<b>. </b></div>").data), ((".</div>").data)),
  ((("<div style=\"text-align: justify\">Sincerely,</div>").data), (("<div>Sincerely,</div>").data)),
  ((("<div style=\"text-align: justify\">Default Department</div>").data), (("<div>Default Department</div>").data)),
  ((("<div style=\"text-align: justify\">\x7b[plsMatrix.CompanyLongName]\x7d</div>").data), (("<div>\x7b[plsMatrix.CompanyLongName]\x7d</div>").data)),
  ((("<div>\x7bInsert(H003 TagHeader)\x7d</div> <br> <div>\x7b[L001]\x7d</div> <br> <div>\x7b[mailingAddress]\x7d</div> <br><br><br><br><br>").data), (("<div>\x7bInsert(H003 TagHeader)\x7d</div>\n<br>\n<div>\x7b[L001]\x7d</div>\n<br>\n<div>\x7b[mailingAddress]\x7d</div>\n<br><br><br><br><br>\n").data)),
  ((("<div style=\"text-align: center\"><b>Notice of Intention to Foreclose Mortgage</b></div> <br>").data), (("<div style=\"text-align: center\"><b>Notice of Intention to Foreclose Mortgage</b></div>\n<br>\n").data)),
  ((("<div><table width=\"100%\" style=\"border-collapse: collapse\"><tbody><tr> <td width=\"20%\"><b>Borrower Name:</b></td> <td>\x7b[M558]\x7d\x7bIf(\x27\x7b[M559]\x7d\x27<>\\\x27\\\x27)\x7d and \x7b[M559]\x7d\x7bEnd If\x7d</td> </tr><tr> <td width=\"20%\" valign=\"top\"><b>Mailing Address:</b></td> <td>\x7bCompress(\x7b[M561]\x7d|\x7b[M562]\x7d|\x7b[M563]\x7d\x7b[M564]\x7d\x7b[M565]\x7d\x7b[M566]\x7d)\x7d</td> </tr><tr> <td width=\"20%\"><b>Mortgage Loan No:</b></td> <td>\x7b[M594]\x7d</td> </tr><tr> <td width=\"20%\"><b>Property Address:</b></td> <td>\x7bCompress(\x7b[M567]\x7d|\x7b[M583]\x7d)\x7d</td> </tr></tbody></table> <br>").data), (("<div><table width=\"100%\" style=\"border-collapse: collapse\"><tbody><tr>\n  <td width=\"20%\"><b>Borrower Name:</b></td>\n  <td>\x7b[M558]\x7d\x7bIf(\x27\x7b[M559]\x7d\x27<>\\\x27\\\x27)\x7d and \x7b[M559]\x7d\x7bEnd If\x7d</td>\n  </tr><tr>\n  <td width=\"20%\" valign=\"top\"><b>Mailing Address:</b></td>\n  <td>\x7bCompress(\x7b[M561]\x7d|\x7b[M562]\x7d|\x7b[M563]\x7d\x7b[M564]\x7d\x7b[M565]\x7d\x7b[M566]\x7d)\x7d</td>\n  </tr><tr>\n  <td width=\"20%\"><b>Mortgage Loan No:</b></td>\n  <td>\x7b[M594]\x7d</td>\n  </tr><tr>\n  <td width=\"20%\"><b>Property Address:</b></td>\n  <td>\x7bCompress(\x7b[M567]\x7d|\x7b[M583]\x7d)\x7d</td>\n</tr></tbody></table>\n<br>\n").data)),
  ((("<div>Dear \x7b[Salutation]\x7d,</div> <br>").data), (("<div>Dear \x7b[Salutation]\x7d,</div>\n<br>\n").data)),
  ((("<div>Notice is hereby given that you are in default in payment of the principal and interest due on the indebtedness represented by the above-described promissory note (the \"Note\"). According to its terms and conditions and in performance of the covenant contained in the certain Deed of Trust (the \"Deed of Trust\") securing payment of the Note to promptly pay when due the principal of and the interest on the indebtedness evidenced by the Note.</div> <br>").data), (("<div>Notice is hereby given that you are in default in payment of the principal and interest due on the indebtedness represented by the above-described promissory note (the \"Note\"). According to its terms and conditions and in performance of the covenant contained in the certain Deed of Trust (the \"Deed of Trust\") securing payment of the Note to promptly pay when due the principal of and the interest on the indebtedness evidenced by the Note.</div>\n<br>\n").data)),
  ((("<div>To cure the aforesaid breach and default, you are required to pay \x7bMoney(\x7b[M591]\x7d)\x7d which represents the past due amount. Please add an additional late charge of \x7bMoney(\x7b[U026]\x7d)\x7d if paid after <b>\x7b[U027]\x7d</b>. This amount is only valid until <b>\x7b[L008]\x7d</b>.</div> <br>").data), (("<div>To cure the aforesaid breach and default, you are required to pay \x7bMoney(\x7b[M591]\x7d)\x7d which represents the past due amount. Please add an additional late charge of \x7bMoney(\x7b[U026]\x7d)\x7d if paid after \x7b[U027]\x7d. This amount is only valid until \x7b[L008]\x7d.</div>\n<br>\n").data)),
  ((("<div>If payment is received after <b>\x7b[L008]\x7d</b>, you must pay the past due amount of \x7bMath(\x7b[C001]\x7d + \x7b[M585]\x7d + \x7b[M029]\x7d - \x7b[M013]\x7d|Money)\x7d on or before <b>\x7b[L011]\x7d</b>, which is thirty-five days from the date of this notice.</div> <br>").data), (("<div>If payment is received after \x7b[L008]\x7d, you must pay the past due amount of \x7bMath(\x7b[C001]\x7d + \x7b[M585]\x7d + \x7b[M029]\x7d - \x7b[M013]\x7d|Money)\x7d on or before \x7b[L011]\x7d, which is thirty-five days from the date of this notice.</div>\n<br>\n").data)),
  ((("<div><b>Demand Notice expires \x7b[L011]\x7d. Total Due: \x7bMath(\x7b[C001]\x7d + \x7b[M585]\x7d - \x7b[M013]\x7d|Money)\x7d</b></div> <br>").data), (("<div><b>Demand Notice expires \x7b[L011]\x7d. Total Due: \x7bMath(\x7b[C001]\x7d + \x7b[M585]\x7d - \x7b[M013]\x7d|Money)\x7d</b></div>\n<br>\n").data)),
  ((("<div><b><u>Number of Payments Due:</u></b> <b>\x7b[M590]\x7d</b></div> <br>").data), (("<div><b><u>Number of Payments Due:</u></b> \x7b[M590]\x7d</div>\n").data)),
  ((("<div><b><u>Net Payment Amount:</u></b> \x7bMoney(\x7b[M591]\x7d)\x7d</div> <br>").data), (("<div><b><u>Net Payment Amount:</u></b> \x7bMoney(\x7b[M591]\x7d)\x7d</div>\n").data)),
  ((("<div><b><u>Unpaid Late Charges:</u></b> \x7bMoney(\x7b[M015]\x7d)\x7d</div> <br>").data), (("<div><b><u>Unpaid Late Charges:</u></b> \x7bMoney(\x7b[M015]\x7d)\x7d</div>\n").data)),
  ((("<div><b><u>NSF &amp; Other Fees:</u></b> \x7bMath(\x7b[M593]\x7d + \x7b[C004]\x7d|Money)\x7d</div> <br>").data), (("<div><b><u>NSF &amp; Other Fees:</u></b> \x7bMath(\x7b[M593]\x7d + \x7b[C004]\x7d|Money)\x7d</div>\n").data)),
  ((("<div><b><u>Unapplied/Suspense Funds:</u></b> \x7bMoney(\x7b[M013]\x7d)\x7d</div> <br>").data), (("<div><b><u>Unapplied/Suspense Funds:</u></b> \x7bMoney(\x7b[M013]\x7d)\x7d</div>\n<br>\n").data)),
  ((("<div>If you do not cure the default within thirty (30) days, we intend to exercise our right to accelerate the mortgage payments. This means that whatever is owed on the original amount borrowed will be considered due immediately and you may lose the chance to pay off the original mortgage in monthly installments. If full payment of the amount of default is not made within thirty (30) days, we also intend to instruct our attorneys to start a lawsuit to foreclose your mortgaged property. If the mortgage is foreclosed your mortgaged property will be sold to pay off the mortgage debt. If we refer your case to our attorneys, but you cure the default before they begin legal proceedings against you, you will still have to pay the reasonable attorney\x27s fees, actually incurred. However, if legal proceedings are started against you, you will have to pay the reasonable attorney\x27s fees within allowable fees and costs. Any attorney\x27s fees will be added to whatever you owe us, which may also include our reasonable costs. If you cure the default within the thirty-day period, you will not be required to pay attorney\x27s fees. </div> <br>").data), (("<div>If you do not cure the default within thirty (30) days, we intend to exercise our right to accelerate the mortgage payments. This means that whatever is owed on the original amount borrowed will be considered due immediately and you may lose the chance to pay off the original mortgage in monthly installments. If full payment of the amount of default is not made within thirty (30) days, we also intend to instruct our attorneys to start a lawsuit to foreclose your mortgaged property. If the mortgage is foreclosed your mortgaged property will be sold to pay off the mortgage debt. If we refer your case to our attorneys, but you cure the default before they begin legal proceedings against you, you will still have to pay the reasonable attorney\x27s fees, actually incurred.  However, if legal proceedings are started against you, you will have to pay the reasonable attorney\x27s fees within allowable fees and costs. Any attorney\x27s fees will be added to whatever you owe us, which may also include our reasonable costs. If you cure the default within the thirty-day period, you will not be required to pay attorney\x27s fees.</div>\n<br>\n").data)),
  ((("<div>If you have not cured the default within the thirty-day period and foreclosure proceedings have begun, you still have the right to cure the default and prevent the sale at any time up to one hour before the foreclosure sale. You may do so by paying the total amount of the unpaid monthly payments plus any late or other charges then due, as well as the reasonable attorney\x27s fees and costs connected with the foreclosure sale and perform any other requirements under the mortgage. A notice of the date of the foreclosure sale will be sent to you before the sale. Of course, the amount needed to cure the default will increase the longer you wait.</div> <br>").data), (("<div>If you have not cured the default within the thirty-day period and foreclosure proceedings have begun, you still have the right to cure the default and prevent the sale at any time up to one hour before the foreclosure sale. You may do so by paying the total amount of the unpaid monthly payments plus any late or other charges then due, as well as the reasonable attorney\x27s fees and costs connected with the foreclosure sale and perform any other requirements under the mortgage. A notice of the date of the foreclosure sale will be sent to you before the sale. Of course, the amount needed to cure the default will increase the longer you wait.</div>\n<br>\n").data)),
  ((("<div><b>You may find out at any time exactly what the required payment will be by calling us at the following number: </b><b>\x7b[plsMatrix.CSPhoneNumber]\x7d</b><b> or </b><b>\x7b[plsMatrix.SPOCContactEmail]\x7d</b><b>. This payment must be in cash, cashier\x27s check, certified check or money order and made payable to us at </b><b>\x7b[plsMatrix.PayoffAddr1]\x7d, \x7b[plsMatrix.PayoffAddr2]\x7d.</b></div> <br>").data), (("<div><b>You may find out at any time exactly what the required payment will be by calling us at the following number: \x7b[plsMatrix.CSPhoneNumber]\x7d or \x7b[plsMatrix.SPOCContactEmail]\x7d. This payment must be in cash, cashier\x27s check, certified check or money order and made payable to us at \x7b[plsMatrix.PayoffAddr1]\x7d, \x7b[plsMatrix.PayoffAddr2]\x7d.</b></div>\n<br>\n").data)),
  ((("<div>You should realize that a foreclosure sale will end your ownership of the mortgaged property and your right to remain in it. If you continue to live in the property after the foreclosure sale, a lawsuit could be started to evict you. </div> <br>").data), (("<div>You should realize that a foreclosure sale will end your ownership of the mortgaged property and your right to remain in it. If you continue to live in the property after the foreclosure sale, a lawsuit could be started to evict you.</div>\n<br>\n").data)),
  ((("<div>Please consider the following:</div> <br>").data), (("<div>Please consider the following:</div>\n<br>\n").data)),
  ((("<div>You should contact a HUD Counselor at HUD\x27s National Servicing Center at (877) 622-8525/TDD (800) 877-8339 or the Homeownership Preservation Foundation (888-995-HOPE) to speak with counselors who can provide assistance and may be able to help you avoid foreclosure. </div> <br>").data), (("<div>You should contact a HUD Counselor at HUD\x27s National Servicing Center at (877) 622-8525/TDD (800) 877-8339 or the Homeownership Preservation Foundation (888-995-HOPE) to speak with counselors who can provide assistance and may be able to help you avoid foreclosure.</div>\n").data)),
  ((("<div><table width=\"100%\" style=\"border-collapse: collapse\"><tbody><tr> <td width=\"3%\" valign=\"top\" style=\"text-align: center\">•</td> <td>There may be homeownership assistance options available, and you can reach a \x7b[plsMatrix.CompanyShortName]\x7d Loss Mitigation Specialist at \x7b[plsMatrix.CSPhoneNumber]\x7d to discuss these options.</td> </tr><tr> <td width=\"3%\" valign=\"top\" style=\"text-align: center\">•</td> <td>Avoid Foreclosure Scams: Do your research, make sure you are working with a reputable company. http://www.consumer.ftc.gov/articles/0100-mortgage-relief-scams</td> </tr></tbody></table></div> <br> <br>").data), (("<div><table width=\"100%\" style=\"border-collapse: collapse\"><tbody><tr>\n  <td width=\"3%\" valign=\"top\" style=\"text-align: center\">•</td>\n  <td>There may be homeownership assistance options available, and you can reach a \x7b[plsMatrix.CompanyShortName]\x7d Loss Mitigation Specialist at \x7b[plsMatrix.CSPhoneNumber]\x7d to discuss these options.</td>\n  </tr><tr>\n  <td width=\"3%\" valign=\"top\" style=\"text-align: center\">•</td>\n  <td>Avoid Foreclosure Scams: Do your research, make sure you are working with a reputable company. http://www.consumer.ftc.gov/articles/0100-mortgage-relief-scams</td>\n</tr></tbody></table></div>\n<br>\n").data)),
  ((("<div style=\"text-align: justify\">If you pay the past due amount, and any additional monthly payments, late charges or fees that may become due between the date of this notice and the date when you make your payment, your account will be considered up-to-date, and you can continue to make your regular monthly payments.</div> <br>").data), (("<div>If you pay the past due amount, and any additional monthly payments, late charges or fees that may become due between the date of this notice and the date when you make your payment, your account will be considered up-to-date, and you can continue to make your regular monthly payments.</div>\n<br>\n").data)),
  ((("<div>Sincerely,</div> <br>").data), (("<div>Sincerely,</div>\n<br>\n").data)),
  ((("<div>Default Department</div> <br>").data), (("<div>Default Department</div>\n").data)),
  ((("<div>\x7b[plsMatrix.CompanyLongName]\x7d</div>").data), (("<div>\x7b[plsMatrix.CompanyLongName]\x7d</div>").data)),
  ((("<div style=\"text-align: justify\">(<u><b>\"OR\"</b></u> If <b>\x7b[M956]\x7d</b>)</div>").data), (("").data)),
  ((("<div style=\"text-align: justify\">(see \"Additional Borrowers/Co-Borrowers\" on Letter Library Business Rules for Additional Addresses in BKFS) </div>").data), (("").data)),
  ((("<div style=\"text-align: justify; font-size: 11pt\">(see \"SII Confirmed\" on Letter Library Business Rules for Additional Addresses in BKFS)</div>").data), (("").data)),
  ((("<br>\n<br>\n<br>\n<br>\n<br>\n<br>\n<br>").data), (("<br><br><br><br><br>").data)),
  ((("<br>\n<br>\n<br>\n<br>\n<br>\n<br>").data), (("<br><br><br><br><br>").data)),
  ((("<br>\n<br>\n<br>\n<br>\n<br>").data), (("<br><br><br><br><br>").data))
]

/-- The `target_header` literal of `transform_to_target_format` STEP 1. -/
def targetHeader : List Char := (("<div>\x7bInsert(H003 TagHeader)\x7d</div>\n<br>\n<div>\x7b[L001]\x7d</div>\n<br>\n<div>\x7b[mailingAddress]\x7d</div>\n<br><br><br><br><br>\n\n").data)

/-- The `target_re_table` literal of `transform_to_target_format` STEP 2. -/
def targetReTable : List Char := (("<div><table width=\"100%\" style=\"border-collapse: collapse\"><tbody><tr>\n  <td width=\"20%\"><b>Borrower Name:</b></td>\n  <td>\x7b[M558]\x7d\x7bIf(\x27\x7b[M559]\x7d\x27<>\x27\x27)\x7d and \x7b[M559]\x7d\x7bEnd If\x7d</td>\n  </tr><tr>\n  <td width=\"20%\" valign=\"top\"><b>Mailing Address:</b></td>\n  <td>\x7bCompress(\x7b[M561]\x7d|\x7b[M562]\x7d|\x7b[M563]\x7d\x7b[M564]\x7d\x7b[M565]\x7d\x7b[M566]\x7d)\x7d</td>\n  </tr><tr>\n  <td width=\"20%\"><b>Mortgage Loan No:</b></td>\n  <td>\x7b[M594]\x7d</td>\n  </tr><tr>\n  <td width=\"20%\"><b>Property Address:</b></td>\n  <td>\x7bCompress(\x7b[M567]\x7d|\x7b[M583]\x7d)\x7d</td>\n</tr></tbody></table>\n<br>\n").data)

/-- The `title_and_table` literal of the first (shadowed) `add_document_title_and_re_table`. -/
def titleAndTableFirstDef : List Char := (("<div style=\"text-align: center\"><b>Notice of Intention to Foreclose Mortgage</b></div>\n<br>\n<div><table width=\"100%\" style=\"border-collapse: collapse\"><tbody><tr>\n  <td width=\"20%\"><b>Borrower Name:</b></td>\n  <td>\x7b[M558]\x7d\x7bIf(\x27\x7b[M559]\x7d\x27<>\x27\x27)\x7d and \x7b[M559]\x7d\x7bEnd If\x7d</td>\n  </tr><tr>\n  <td width=\"20%\" valign=\"top\"><b>Mailing Address:</b></td>\n  <td>\x7bCompress(\x7b[M561]\x7d|\x7b[M562]\x7d|\x7b[M563]\x7d\x7b[M564]\x7d\x7b[M565]\x7d\x7b[M566]\x7d)\x7d</td>\n  </tr><tr>\n  <td width=\"20%\"><b>Mortgage Loan No:</b></td>\n  <td>\x7b[M594]\x7d</td>\n  </tr><tr>\n  <td width=\"20%\"><b>Property Address:</b></td>\n  <td>\x7bCompress(\x7b[M567]\x7d|\x7b[M583]\x7d)\x7d</td>\n</tr></tbody></table>\n<br>\n").data)

/-- The `title_html` literal of the effective `add_document_title_and_re_table`. -/
def titleHtml : List Char := (("<div style=\"text-align: center\"><b>Notice of Intention to Foreclose Mortgage</b></div>\n<br>").data)

/-- The `re_table_html` literal of the effective `add_document_title_and_re_table`. -/
def reTableHtml : List Char := (("<div><table width=\"100%\" style=\"border-collapse: collapse\"><tbody><tr>\n  <td width=\"20%\"><b>Borrower Name:</b></td>\n  <td>\x7b[M558]\x7d\x7bIf(\x27\x7b[M559]\x7d\x27&lt;&gt;\x27\x27)\x7d and \x7b[M559]\x7d\x7bEnd If\x7d</td>\n  </tr><tr>\n  <td width=\"20%\" valign=\"top\"><b>Mailing Address:</b></td>\n  <td>\x7bCompress(\x7b[M561]\x7d|\x7b[M562]\x7d|\x7b[M563]\x7d\x7b[M564]\x7d\x7b[M565]\x7d\x7b[M566]\x7d)\x7d</td>\n  </tr><tr>\n  <td width=\"20%\"><b>Mortgage Loan No:</b></td>\n  <td>\x7b[M594]\x7d</td>\n  </tr><tr>\n  <td width=\"20%\"><b>Property Address:</b></td>\n  <td>\x7bCompress(\x7b[M567]\x7d|\x7b[M583]\x7d)\x7d</td>\n</tr></tbody></table></div>\n<br>").data)

/-- The `clean_salutation` literal of the first (shadowed) `fix_salutation_section`. -/
def cleanSalutationFirstDef : List Char := (("<div>Dear \x7b[Salutation]\x7d,</div>\n<br>").data)

/-- The `clean_salutation` literal of the effective `fix_salutation_section`. -/
def cleanSalutation : List Char := (("<div>Dear \x7b[Salutation]\x7d,</div>\n<br>").data)

/-- The ordered `text.replace` pairs of `apply_comprehensive_spacing` (before its two final regex substitutions). -/
def comprehensiveSpacingReplacements : List (List Char × List Char) := [
  (((" <br> ").data), (("\n<br>\n").data)),
  ((("<br> ").data), (("<br>\n").data)),
  (((" <br>").data), (("\n<br>").data)),
  (((" </div>").data), (("\n</div>").data)),
  (((" <div>").data), (("\n<div>").data)),
  ((("<table").data), (("<table").data)),
  ((("</table>").data), (("</table>").data)),
  ((("<tbody>").data), (("<tbody>").data)),
  ((("</tbody>").data), (("</tbody>").data)),
  ((("<tr>").data), (("<tr>").data)),
  ((("</tr>").data), (("</tr>").data)),
  ((("<td").data), (("  <td").data)),
  ((("</td>").data), (("</td>").data)),
  ((("</tr>   <tr>").data), (("  </tr><tr>").data)),
  ((("</td> \n  </tr>").data), (("</td>\n  </tr>").data)),
  ((("</td> \n</td>").data), (("</td>\n    </td>").data)),
  ((("   <td").data), (("  <td").data)),
  ((("   <tr>").data), (("<tr>").data)),
  ((("<b>\x7b[plsMatrix.CSPhoneNumber]\x7d</b>").data), (("\x7b[plsMatrix.CSPhoneNumber]\x7d").data)),
  ((("<b>\x7b[plsMatrix.SPOCContactEmail]\x7d</b>").data), (("\x7b[plsMatrix.SPOCContactEmail]\x7d").data)),
  ((("<b>\x7b[plsMatrix.PayoffAddr1]\x7d, \x7b[plsMatrix.PayoffAddr2]\x7d.</b>").data), (("\x7b[plsMatrix.PayoffAddr1]\x7d, \x7b[plsMatrix.PayoffAddr2]\x7d.").data))
]

/-! ### Normalization passes -/

/-- Embeds `simple_field_cleanup`: apply the literal replacement table in order. -/
def simple_field_cleanup (t : List Char) : List Char :=
  applyReplacements simpleFieldReplacements t

/-- The debug banner prepended between STEP 1 and STEP 2 of
`apply_universal_formatting_rules`, reporting whether the known-bad substring
is still present. -/
def debugBannerStep (t : List Char) : List Char :=
  if containsSub (("(Company Address Line 1)").data) t then
    ("<div style=\"color: red;\">❌ Simple field cleanup did NOT work</div>").data ++ t
  else
    ("<div style=\"color: green;\">✓ Simple field cleanup worked!</div>").data ++ t

/-- The end-anchor search of the effective `fix_salutation_section`: the
candidate end patterns are tried in order and the first pattern that matches
anywhere in the text wins (regardless of position). -/
def salutationEndPos (t : List Char) : Option Nat :=
  (firstMatch (matchDivOpenThen (("Notice is hereby given").data)) t).orElse (fun _ =>
    (firstMatch (matchDivOpenThen (("To cure").data)) t).orElse (fun _ =>
      firstMatch (matchDivOpenThen (("You are required").data)) t))

/-- The effective (last-defined, line 1063) `fix_salutation_section`: find the
first `<div[^>]*>Dear`, find the end anchor, and replace the span between
them with the canonical salutation; a missing anchor makes it a no-op.  The
source guards the replacement with the truthiness test `if end_pos:`, so an
end anchor found at index 0 (a falsy position) also leaves the text
unchanged. -/
def fix_salutation_section (t : List Char) : List Char :=
  match firstMatch (matchDivOpenThen (("Dear").data)) t with
  | none => t
  | some ds =>
    match salutationEndPos t with
    | none => t
    | some ep =>
      if ep = 0 then t
      else t.take ds ++ cleanSalutation ++ t.drop ep

/-- Tail matcher for the start anchor of the first (shadowed)
`fix_salutation_section`: after `<div[^>]*>`, the regex
`Dear <b>\x7b[^\x7d]+\x7d</b> \(Mortgagor Name\)`. -/
def dearBoldTail (cs : List Char) : Bool :=
  let lit := ("Dear <b>\x7b").data
  if lit.isPrefixOf cs then
    match distToChar '\x7d' (cs.drop lit.length) with
    | some d =>
      decide (1 ≤ d) &&
        (("\x7d</b> (Mortgagor Name)").data).isPrefixOf ((cs.drop lit.length).drop d)
    | none => false
  else false

/-- The first (shadowed, line 576) definition of `fix_salutation_section`;
the later Python re-definition replaces it at runtime. -/
def fix_salutation_section_v1 (t : List Char) : List Char :=
  match firstMatch (matchDivOpenP dearBoldTail) t with
  | none => t
  | some ds =>
    match firstMatch (fun s => (("<div>Notice is hereby given").data).isPrefixOf s) t with
    | none => t
    | some np => t.take ds ++ cleanSalutationFirstDef ++ t.drop np

/-- Embeds `fix_payment_information_cleanup`. -/
def fix_payment_information_cleanup (t : List Char) : List Char :=
  applyReplacements paymentInfoReplacements t

/-- Embeds `fix_remaining_patterns`. -/
def fix_remaining_patterns (t : List Char) : List Char :=
  applyReplacements remainingReplacements t

/-- Match length for the first `fix_header_structure_cleanup` regex,
`<div><b>\(IF \x7b[^\x7d]+\x7d = [^<]+\)</b></div>\s*<br>\s*`: after the
literal head, `[^\x7d]+\x7d` runs to the first `\x7d` (at least one character
before it), then ` = `, then `[^<]+\)</b></div>` forces the character just
before the first `<` to be `)` followed by the literal `</b></div>`, then
`\s*<br>` and a final greedy `\s*`. -/
def ifLineLen (cs : List Char) : Option Nat :=
  let lit1 := ("<div><b>(IF \x7b").data
  if lit1.isPrefixOf cs then
    let cs1 := cs.drop lit1.length
    match distToChar '\x7d' cs1 with
    | some d =>
      if 1 ≤ d then
        let cs2 := cs1.drop (d + 1)
        if ((" = ").data).isPrefixOf cs2 then
          let cs3 := cs2.drop 3
          match distToChar '<' cs3 with
          | some m =>
            if decide (2 ≤ m) && (cs3.getD (m - 1) 'x' == ')')
                && (("</b></div>").data).isPrefixOf (cs3.drop m) then
              let cs4 := cs3.drop (m + 10)
              match wsThenLit (("<br>").data) cs4 with
              | some n =>
                some (lit1.length + (d + 1) + 3 + (m + 10) + n + wsRunLen (cs4.drop n))
              | none => none
            else none
          | none => none
        else none
      else none
    | none => none
  else none

/-- Match length for the second `fix_header_structure_cleanup` regex: the
literal Send-via-First-Class div followed by `\s*<br>\s*`. -/
def sendViaLen (cs : List Char) : Option Nat :=
  let lit := ("<div style=\"text-align: justify\"><b>Send </b><b>via</b><b> First Class and Certified Mail to the </b><b>Mailing </b><b>address</b></div>").data
  if lit.isPrefixOf cs then
    match wsThenLit (("<br>").data) (cs.drop lit.length) with
    | some n => some (lit.length + n + wsRunLen (cs.drop (lit.length + n)))
    | none => none
  else none

/-- Embeds `fix_header_structure_cleanup`: two `re.sub` deletions, conditional-logic
line first, mail-routing line second. -/
def fix_header_structure_cleanup (t : List Char) : List Char :=
  regexSubAll sendViaLen [] (regexSubAll ifLineLen [] t)

/-- The effective (last-defined, line 1034) `add_document_title_and_re_table`:
anchor on the first `<br><br><br><br><br>` run and insert the canonical title
and RE table immediately after it; without the anchor it is a no-op. -/
def add_document_title_and_re_table (t : List Char) : List Char :=
  match firstMatch (fun s => (("<br><br><br><br><br>").data).isPrefixOf s) t with
  | none => t
  | some p =>
    let ip := p + (("<br><br><br><br><br>").data).length
    t.take ip ++ titleHtml ++ reTableHtml ++ t.drop ip

/-- The first (shadowed, line 733) definition of
`add_document_title_and_re_table`, anchored on the first
`<div><b>Borrower Name:</b>` with the insertion placed before it; the later
Python re-definition replaces it at runtime. -/
def add_document_title_and_re_table_v1 (t : List Char) : List Char :=
  match firstMatch (fun s => (("<div><b>Borrower Name:</b>").data).isPrefixOf s) t with
  | none => t
  | some p => t.take p ++ titleAndTableFirstDef ++ t.drop p

/-- Embeds `apply_comprehensive_spacing`: the ordered `replace` pairs, then
the `re.sub` collapsing `\n\s*\n\s*\n`, then the one collapsing `\n\x7b3,\x7d`, both to two newlines. -/
def apply_comprehensive_spacing (t : List Char) : List Char :=
  let t := applyReplacements comprehensiveSpacingReplacements t
  let t := regexSubAll nlWsNlLen (("\n\n").data) t
  regexSubAll nl3Len (("\n\n").data) t

/-- One iteration of the `payment_transformations` loop of
`transform_to_target_format`: the `replace` for this pair, then — indented
inside the loop body in the source — the four `re.sub` cleanups and
`apply_comprehensive_spacing`. -/
def transformStep (t : List Char) (pr : List Char × List Char) : List Char :=
  let t := pyReplace pr.1 pr.2 t
  let t := regexSubAll brRun7Len (("<br><br><br><br><br>").data) t
  let t := regexSubAll (tagPairLen (("<b>").data) (("</b>").data)) [] t
  let t := regexSubAll (tagPairLen (("<u>").data) (("</u>").data)) [] t
  let t := regexSubAll wsPlusLen ((" ").data) t
  apply_comprehensive_spacing t

/-- The STEP 1 start anchor of `transform_to_target_format` (an escaped
literal regex). -/
def headerStartLit : List Char :=
  ("<div style=\"text-align: justify\"><b>\x7b[H002]\x7d </b></div>").data

/-- The STEP 1 end anchor of `transform_to_target_format`. -/
def titleDivLit : List Char :=
  ("<div style=\"text-align: center\"><b>Notice of Intention to Foreclose Mortgage</b></div>").data

/-- The STEP 2 start anchor of `transform_to_target_format` (the `<b>`
pair around a tab character is literal). -/
def borrowerLineLit : List Char :=
  ("<div><b>Borrower Name:</b><b>\t</b>\x7b[M558]\x7d and \x7b[M559]\x7d</div>").data

/-- The STEP 2 end anchor of `transform_to_target_format`. -/
def salutationDivLit : List Char :=
  ("<div>Dear \x7b[Salutation]\x7d,</div>").data

/-- Embeds `transform_to_target_format`: the STEP 1 header span replacement, the
STEP 2 borrower span replacement, then the fold of the
`payment_transformations` loop. -/
def transform_to_target_format (text : List Char) : List Char :=
  let text :=
    match firstMatch (fun s => headerStartLit.isPrefixOf s) text with
    | none => text
    | some hs =>
      match firstMatch (fun s => titleDivLit.isPrefixOf s) text with
      | none => text
      | some he => text.take hs ++ targetHeader ++ text.drop he
  let text :=
    match firstMatch (fun s => borrowerLineLit.isPrefixOf s) text with
    | none => text
    | some bs =>
      match firstMatch (fun s => salutationDivLit.isPrefixOf s) text with
      | none => text
      | some ss => text.take bs ++ targetReTable ++ text.drop ss
  paymentTransformations.foldl transformStep text

/-! ### The pipeline and its exception boundary -/

/-- The red banner built in the `except` clause of
`apply_universal_formatting_rules`, prepended to the HTML held by the local
`html_text` variable at the moment of the failure. -/
def formattingErrorBanner (e : List Char) : List Char :=
  ("<div style=\"color: red;\">Formatting error: ").data ++ e ++ ("</div>").data

/-- The `try`/`except` skeleton of `apply_universal_formatting_rules`: run the
steps in order, rebinding the working text after each one; when a step raises
(`Except.error`), execution stops and the error banner is prepended to the
text last assigned — the value *before* the failing step, exactly as the
`html_text` variable behaves in the source. -/
def applyPipelineSteps : List (List Char → Except (List Char) (List Char)) →
    List Char → List Char
  | [], t => t
  | p :: ps, t =>
    match p t with
    | Except.ok t2 => applyPipelineSteps ps t2
    | Except.error e => formattingErrorBanner e ++ t

/-- The concrete steps of `apply_universal_formatting_rules`, in source
order.  Each pass of this program is an exception-free string
transformation, so each step returns `Except.ok`. -/
def universalSteps : List (List Char → Except (List Char) (List Char)) :=
  [ fun t => Except.ok (simple_field_cleanup t)
  , fun t => Except.ok (debugBannerStep t)
  , fun t => Except.ok (fix_salutation_section t)
  , fun t => Except.ok (fix_payment_information_cleanup t)
  , fun t => Except.ok (fix_remaining_patterns t)
  , fun t => Except.ok (fix_header_structure_cleanup t)
  , fun t => Except.ok (add_document_title_and_re_table t)
  , fun t => Except.ok (transform_to_target_format t) ]

/-- Embeds `apply_universal_formatting_rules`. -/
def apply_universal_formatting_rules (html : List Char) : List Char :=
  applyPipelineSteps universalSteps html

/-! ### Request-level processing -/

/-- The result payload dictionary; keys absent from a payload are embedded as
`none`/empty. -/
structure ProcessResult where
  success : Bool
  formattedHtml : List Char
  documentType : Option (List Char)
  paragraphs : List ParaData
  tables : List TableData
  error : Option (List Char)
deriving DecidableEq

/-- Embeds `process_word_document`.  The document parse
`Document(io.BytesIO(file_bytes))` is an external library call and the only
operation inside the `try` block that can raise; its outcome enters the model
as an `Except` value, where `.error msg` stands for a raised exception with
`str(e) = msg`, on which the `except` clause builds the failure payload. -/
def process_word_document (parsed : Except (List Char) DocxDoc) : ProcessResult :=
  match parsed with
  | Except.error e =>
    { success := false
      formattedHtml := ("<div>Error processing document: ").data ++ e ++ ("</div>").data
      documentType := none
      paragraphs := []
      tables := []
      error := some (("Error processing document: ").data ++ e) }
  | Except.ok doc =>
    let paragraphs := doc.paragraphs.map extract_paragraph_formatting
    let tables := doc.tables.map extract_table_formatting
    let documentType := detect_document_type paragraphs
    let formattedHtml :=
      apply_universal_formatting_rules
        (generate_formatted_html paragraphs tables documentType)
    { success := true
      formattedHtml := formattedHtml
      documentType := some documentType
      paragraphs := paragraphs
      tables := tables
      error := none }

/-! ### Fixtures and statement-side helper definitions -/

/-- The token former `\x7b[f]\x7d` for a field name `f` (the un-prefixed form
that the six `plsMatrix` rules of `simple_field_cleanup` look for). -/
def plsBareToken (f : List Char) : List Char :=
  ("\x7b[").data ++ f ++ ("]\x7d").data

/-- The token former `\x7b[plsMatrix.f]\x7d` (the already-prefixed form the
six rules produce). -/
def plsPrefixedToken (f : List Char) : List Char :=
  ("\x7b[plsMatrix.").data ++ f ++ ("]\x7d").data

/-- The doubled-prefix form `\x7b[plsMatrix.plsMatrix.f]\x7d` that must never
be produced. -/
def plsDoubledToken (f : List Char) : List Char :=
  ("\x7b[plsMatrix.plsMatrix.").data ++ f ++ ("]\x7d").data

/-- The six field names given a `plsMatrix.` prefix by `simple_field_cleanup`. -/
def plsPrefixFields : List (List Char) :=
  [ ("CSPhoneNumber").data
  , ("SPOCContactEmail").data
  , ("PayoffAddr1").data
  , ("PayoffAddr2").data
  , ("CompanyShortName").data
  , ("CompanyLongName").data ]

/-- Rendered-HTML scenario for the salutation pass: a prefix `P`, two
consecutive `Dear` blocks with salutation texts `s1` and `s2` joined by the
renderer's `\n<br>\n` marker, then the notice block `<div>Notice is hereby
given` continuing with `rest`. -/
def salutationScenario (P s1 s2 rest : List Char) : List Char :=
  P ++ ((("<div>Dear ").data) ++ (s1 ++ ((("</div>\n<br>\n<div>Dear ").data)
    ++ (s2 ++ ((("</div>\n<br>\n").data) ++ ((("<div>Notice is hereby given").data) ++ rest))))))

/-- A paragraph record with the given text and no formatting, as used in
concrete classifier examples. -/
def plainPara (text : List Char) : ParaData :=
  { text := text
    alignment := ("left").data
    fontSize := none
    bold := false
    underline := false
    italic := false
    runs := [] }

/-! ### Helper lemmas -/

theorem isPrefixOf_append_self (l m : List Char) : l.isPrefixOf (l ++ m) = true := by
  rw [List.isPrefixOf_iff_prefix]
  exact List.prefix_append l m

theorem drop_append_add (a b : List Char) (k : Nat) :
    (a ++ b).drop (a.length + k) = b.drop k := by
  induction a with
  | nil => simp
  | cons c aa ih => simp [Nat.succ_add, ih]

theorem take_append_add (a b : List Char) (k : Nat) :
    (a ++ b).take (a.length + k) = a ++ b.take k := by
  induction a with
  | nil => simp
  | cons c aa ih => simp [Nat.succ_add, ih]

theorem firstMatch_eq_some (m : List Char → Bool) (n : Nat) (t : List Char)
    (hlt : ∀ i, i < n → m (List.drop i t) = false) (hn : m (List.drop n t) = true) :
    firstMatch m t = some n := by
  induction n generalizing t with
  | zero =>
    rw [List.drop_zero] at hn
    cases t with
    | nil => simp [firstMatch, hn]
    | cons c rest => simp [firstMatch, hn]
  | succ k ih =>
    have h0 : m t = false := by simpa using hlt 0 (Nat.succ_pos k)
    cases t with
    | nil =>
      have h1 : m [] = true := by simpa using hn
      simp [h0] at h1
    | cons c rest =>
      have ih' : firstMatch m rest = some k := by
        refine ih rest (fun i hi => ?_) (by simpa using hn)
        simpa using hlt (i + 1) (Nat.succ_lt_succ hi)
      simp [firstMatch, h0, ih']

theorem firstMatch_isSome_of (m : List Char → Bool) (t : List Char) (i : Nat)
    (h : m (List.drop i t) = true) : (firstMatch m t).isSome = true := by
  induction t generalizing i with
  | nil =>
    rw [List.drop_nil] at h
    simp [firstMatch, h]
  | cons c rest ih =>
    cases i with
    | zero =>
      rw [List.drop_zero] at h
      simp [firstMatch, h]
    | succ j =>
      by_cases hm : m (c :: rest)
      · simp [firstMatch, hm]
      · have := ih j (by simpa using h)
        simp only [firstMatch, hm]
        simpa using this

theorem containsSub_of_prefixAt (pat t : List Char) (i : Nat)
    (h : pat.isPrefixOf (List.drop i t) = true) : containsSub pat t = true :=
  firstMatch_isSome_of (fun s => pat.isPrefixOf s) t i h

theorem one_le_countSub (pat t : List Char) (i : Nat)
    (h : pat.isPrefixOf (List.drop i t) = true) : 1 ≤ countSub pat t := by
  induction t generalizing i with
  | nil =>
    rw [List.drop_nil] at h
    simp [countSub, h]
  | cons c rest ih =>
    cases i with
    | zero =>
      rw [List.drop_zero] at h
      simp [countSub, h]
    | succ j =>
      have := ih j (by simpa using h)
      simp only [countSub]
      omega

theorem countSub_le_count (c : Char) (p t : List Char) :
    countSub (c :: p) t ≤ t.count c := by
  induction t with
  | nil => simp [countSub]
  | cons a rest ih =>
    simp only [countSub]
    by_cases h : (c :: p).isPrefixOf (a :: rest)
    · have hac : a = c := by
        simp [List.isPrefixOf] at h
        exact h.1.symm
      rw [if_pos h, hac, List.count_cons_self]
      omega
    · rw [if_neg h]
      have h2 : rest.count c ≤ (a :: rest).count c := by
        by_cases hc : c = a
        · rw [hc, List.count_cons_self]
          omega
        · rw [List.count_cons_of_ne hc rest]
      omega

theorem dedup_length_one_iff (l : List (List Char)) :
    l.dedup.length = 1 ↔ l ≠ [] ∧ ∀ x ∈ l, ∀ y ∈ l, x = y := by
  constructor
  · intro h
    obtain ⟨a, ha⟩ := List.length_eq_one.mp h
    refine ⟨?_, ?_⟩
    · rintro rfl
      simp at ha
    · intro x hx y hy
      have hx' : x ∈ l.dedup := List.mem_dedup.mpr hx
      have hy' : y ∈ l.dedup := List.mem_dedup.mpr hy
      rw [ha] at hx' hy'
      simp at hx' hy'
      rw [hx', hy']
  · rintro ⟨hne, hall⟩
    obtain ⟨b, l', rfl⟩ := List.exists_cons_of_ne_nil hne
    have hbmem : b ∈ (b :: l').dedup := List.mem_dedup.mpr (List.mem_cons_self b l')
    have hmem : ∀ x ∈ (b :: l').dedup, x = b := fun x hx =>
      hall x (List.mem_dedup.mp hx) b (List.mem_cons_self b l')
    have hnd : (b :: l').dedup.Nodup := List.nodup_dedup _
    rcases hd : (b :: l').dedup with _ | ⟨x, _ | ⟨y, tl⟩⟩
    · rw [hd] at hbmem
      simp at hbmem
    · rfl
    · rw [hd] at hmem hnd
      have hx : x = b := hmem x (by simp)
      have hy : y = b := hmem y (by simp)
      rw [List.nodup_cons] at hnd
      exact absurd (by simp [hx, hy]) hnd.1

theorem forall_false_of_firstMatch_none (m : List Char → Bool) :
    ∀ t : List Char, firstMatch m t = none → ∀ i, m (List.drop i t) = false := by
  intro t
  induction t with
  | nil =>
    intro h i
    simp only [firstMatch] at h
    by_cases hm : m [] = true
    · simp [hm] at h
    · rw [List.drop_nil]
      exact Bool.not_eq_true _ |>.mp hm
  | cons c rest ih =>
    intro h i
    simp only [firstMatch] at h
    by_cases hm : m (c :: rest) = true
    · simp [hm] at h
    · have hm' : m (c :: rest) = false := Bool.not_eq_true _ |>.mp hm
      cases i with
      | zero => simpa using hm'
      | succ j =>
        have hrest : firstMatch m rest = none := by
          rw [if_neg hm] at h
          simpa using h
        simpa using ih hrest j

theorem pyReplaceFuel_eq_self (old new : List Char) :
    ∀ (fuel : Nat) (t : List Char),
      (∀ i, old.isPrefixOf (List.drop i t) = false) →
      pyReplaceFuel old new fuel t = t := by
  intro fuel
  induction fuel with
  | zero =>
    intro t _
    rfl
  | succ f ih =>
    intro t h
    cases t with
    | nil => rfl
    | cons c rest =>
      have h0 : old.isPrefixOf (c :: rest) = false := by simpa using h 0
      have hcond : ¬(old ≠ [] ∧ old.isPrefixOf (c :: rest) = true) := by
        rintro ⟨-, hpre⟩
        rw [h0] at hpre
        exact Bool.noConfusion hpre
      simp only [pyReplaceFuel]
      rw [if_neg hcond]
      congr 1
      exact ih rest (fun i => by simpa using h (i + 1))

/-- A replacement is the identity on any text that has no occurrence of its
search pattern. -/
theorem pyReplace_of_not_containsSub (old new t : List Char)
    (h : containsSub old t = false) : pyReplace old new t = t := by
  have hnone : firstMatch (fun s => old.isPrefixOf s) t = none := by
    unfold containsSub at h
    cases hfm : firstMatch (fun s => old.isPrefixOf s) t with
    | none => rfl
    | some v =>
      rw [hfm] at h
      simp at h
  exact pyReplaceFuel_eq_self old new t.length t
    (fun i => forall_false_of_firstMatch_none _ t hnone i)

/-! ### Claim theorems -/

/-- C8: the rendered HTML produced by `generate_formatted_html` is independent
of the extracted `tables` argument — for the same paragraphs and document
type, any two table lists give a byte-identical output string, because the
main rendering path never emits table content. -/
theorem c8_rendered_html_ignores_tables (paragraphs : List ParaData)
    (tables1 tables2 : List TableData) (documentType : List Char) :
    generate_formatted_html paragraphs tables1 documentType
      = generate_formatted_html paragraphs tables2 documentType := rfl

/-- C5: when the document load raises (the parse enters the model as
`Except.error e` with `e` the exception text), `process_word_document`
returns a payload with `success = false`, a non-empty `error` string that
contains `Error processing document`, and a `<div>` `formattedHtml` fragment
describing the error; the function is total, so the exception never reaches
the caller. -/
theorem c5_parse_failure_payload (e : List Char) :
    (process_word_document (Except.error e)).success = false
    ∧ (process_word_document (Except.error e)).error
        = some ((("Error processing document: ").data) ++ e)
    ∧ 0 < ((("Error processing document: ").data) ++ e).length
    ∧ containsSub (("Error processing document").data)
        ((("Error processing document: ").data) ++ e) = true
    ∧ (process_word_document (Except.error e)).formattedHtml
        = (("<div>Error processing document: ").data) ++ e ++ (("</div>").data) := by
  refine ⟨rfl, rfl, by simp, ?_, rfl⟩
  refine containsSub_of_prefixAt _ _ 0 ?_
  rw [List.drop_zero]
  have h1 : (("Error processing document: ").data)
      = (("Error processing document").data) ++ ((": ").data) := rfl
  rw [h1, List.append_assoc]
  exact isPrefixOf_append_self _ _

/-- C1 (code bug): in the `try`/`except` skeleton of
`apply_universal_formatting_rules`, a pass failure after an earlier pass has
transformed the text makes the `except` clause prepend the error banner to
the *partially transformed* HTML — not to the original pre-pipeline input
claimed by the spec (and by the source's own comment).  Witnessed by a
two-step pipeline whose first step appends `!` and whose second step raises
`boom` on input `A`: the result is the banner followed by `A!`, not `A`. -/
theorem c1_failing_pass_keeps_partial_html :
    applyPipelineSteps
        [fun t => Except.ok (t ++ (("!").data)), fun _ => Except.error (("boom").data)]
        (("A").data)
      = formattingErrorBanner (("boom").data) ++ (("A!").data)
    ∧ ((applyPipelineSteps
        [fun t => Except.ok (t ++ (("!").data)), fun _ => Except.error (("boom").data)]
        (("A").data)
      == formattingErrorBanner (("boom").data) ++ (("A").data)) = false) := ⟨rfl, rfl⟩

/-- C2 (counterexample): the effective (last-defined)
`add_document_title_and_re_table` does not anchor on the Borrower-Name block:
on an input that contains a `<div><b>Borrower Name:</b>` block but no
`<br><br><br><br><br>` run, the pass is a no-op and nothing is inserted
before the block, contradicting the claim. -/
theorem c2_counterexample_borrower_anchor_ignored :
    add_document_title_and_re_table (("<div><b>Borrower Name:</b> x</div>").data)
      = (("<div><b>Borrower Name:</b> x</div>").data)
    ∧ containsSub (("<div><b>Borrower Name:</b>").data)
        (("<div><b>Borrower Name:</b> x</div>").data) = true := ⟨rfl, rfl⟩

/-- C2 (amended): the effective title + RE-table insertion pass anchors on
the first `<br><br><br><br><br>` run: with no such run the input passes
through unchanged (even when a Borrower-Name block is present), and when the
run is present the canonical centered title and canonical 4-row RE table are
inserted immediately after its first occurrence, the text on both sides
unchanged. -/
theorem c2_effective_insertion_after_br_run (t P S : List Char) :
    (firstMatch (fun s => (("<br><br><br><br><br>").data).isPrefixOf s) t = none →
      add_document_title_and_re_table t = t)
    ∧ ((∀ i, i < P.length →
          (("<br><br><br><br><br>").data).isPrefixOf
            (List.drop i (P ++ ((("<br><br><br><br><br>").data) ++ S))) = false) →
        add_document_title_and_re_table (P ++ ((("<br><br><br><br><br>").data) ++ S))
          = P ++ ((("<br><br><br><br><br>").data) ++ (titleHtml ++ (reTableHtml ++ S)))) := by
  constructor
  · intro h
    unfold add_document_title_and_re_table
    rw [h]
  · intro h
    have hm : firstMatch (fun s => (("<br><br><br><br><br>").data).isPrefixOf s)
        (P ++ ((("<br><br><br><br><br>").data) ++ S)) = some P.length := by
      refine firstMatch_eq_some _ P.length _ h ?_
      rw [List.drop_left]
      exact isPrefixOf_append_self _ _
    unfold add_document_title_and_re_table
    rw [hm]
    dsimp only
    have hlen : ((("<br><br><br><br><br>").data)).length = 20 := rfl
    rw [hlen]
    have htake : (P ++ ((("<br><br><br><br><br>").data) ++ S)).take (P.length + 20)
        = P ++ ((("<br><br><br><br><br>").data)) := by
      rw [take_append_add]
      congr 1
    have hdrop : (P ++ ((("<br><br><br><br><br>").data) ++ S)).drop (P.length + 20) = S := by
      rw [drop_append_add]
      rfl
    rw [htake, hdrop]
    simp [List.append_assoc]

/-- C2 (witness): the amended theorem applied at concrete inputs — a bare
`x` is untouched, and `x<br><br><br><br><br>y` receives the insertion right
after the `<br>` run. -/
theorem c2_effective_insertion_after_br_run_witness :
    add_document_title_and_re_table (("x").data) = (("x").data)
    ∧ add_document_title_and_re_table
        ((("x").data) ++ ((("<br><br><br><br><br>").data) ++ (("y").data)))
      = (("x").data) ++ ((("<br><br><br><br><br>").data)
          ++ (titleHtml ++ (reTableHtml ++ (("y").data)))) :=
  ⟨(c2_effective_insertion_after_br_run (("x").data) [] []).1 rfl,
   (c2_effective_insertion_after_br_run [] (("x").data) (("y").data)).2 (by decide)⟩

/-- C3: for the two effective anchor-based span-replace passes, a missing
anchor makes the pass the identity: `fix_salutation_section` returns its
input unchanged when the `<div[^>]*>Dear` start anchor has no match or when
none of the ordered end patterns matches, and
`add_document_title_and_re_table` returns its input unchanged when the
`<br><br><br><br><br>` anchor has no match.  Both embeddings are total
functions, reflecting that the passes never raise. -/
theorem c3_missing_anchor_is_noop (t : List Char) :
    (firstMatch (matchDivOpenThen (("Dear").data)) t = none →
      fix_salutation_section t = t)
    ∧ (salutationEndPos t = none → fix_salutation_section t = t)
    ∧ (firstMatch (fun s => (("<br><br><br><br><br>").data).isPrefixOf s) t = none →
        add_document_title_and_re_table t = t) := by
  refine ⟨?_, ?_, ?_⟩
  · intro h
    unfold fix_salutation_section
    rw [h]
  · intro h
    unfold fix_salutation_section
    rw [h]
    cases firstMatch (matchDivOpenThen (("Dear").data)) t <;> rfl
  · intro h
    unfold add_document_title_and_re_table
    rw [h]

/-- C3 (witness): both passes applied to the anchor-free input `x` return it
unchanged. -/
theorem c3_missing_anchor_is_noop_witness :
    fix_salutation_section (("x").data) = (("x").data)
    ∧ add_document_title_and_re_table (("x").data) = (("x").data) :=
  ⟨(c3_missing_anchor_is_noop (("x").data)).1 rfl,
   (c3_missing_anchor_is_noop (("x").data)).2.2 rfl⟩

/-- C10 (counterexample): `simple_field_cleanup` applied to its own output
*can* introduce a doubled prefix.  On the input
`\x7b[plsMatrix. (System  (Mailing Street Address)Date)plsMatrix.CSPhoneNumber]\x7d`
no doubled token is present, and none is present after one application
(which only deletes the ` (Mailing Street Address)` parenthetical, gluing up
the text ` (System Date)`); the second application then deletes
` (System Date)` — an entry listed *earlier* in the table, already passed by
the time the first application glued it together — producing
`\x7b[plsMatrix.plsMatrix.CSPhoneNumber]\x7d`, refuting the claim as
universally stated. -/
theorem c10_counterexample_doubled_prefix_from_deletions :
    containsSub (plsDoubledToken (("CSPhoneNumber").data))
        (("\x7b[plsMatrix. (System  (Mailing Street Address)Date)plsMatrix.CSPhoneNumber]\x7d").data)
      = false
    ∧ containsSub (plsDoubledToken (("CSPhoneNumber").data))
        (simple_field_cleanup
          (("\x7b[plsMatrix. (System  (Mailing Street Address)Date)plsMatrix.CSPhoneNumber]\x7d").data))
      = false
    ∧ containsSub (plsDoubledToken (("CSPhoneNumber").data))
        (simple_field_cleanup (simple_field_cleanup
          (("\x7b[plsMatrix. (System  (Mailing Street Address)Date)plsMatrix.CSPhoneNumber]\x7d").data)))
      = true := ⟨rfl, rfl, rfl⟩

/-- C10 (amended): the `plsMatrix` prefix rules never rewrite an
already-prefixed token.  For each of the six fields the bare pattern
`\x7b[f]\x7d` does not occur inside the prefixed token
`\x7b[plsMatrix.f]\x7d` (there the field name follows `.`, not `[`), and a
replacement is the identity on any text free of its search pattern, so the
prefix rules leave such text — in particular the prefixed tokens — intact;
each prefixed token, taken as the whole input, is a fixed point of
`simple_field_cleanup` under one and under two applications, with no
doubled `\x7b[plsMatrix.plsMatrix.f]\x7d` form produced from it.  (The
original blanket guarantee over every input string fails by the
counterexample: parenthetical-deletion entries of the same table can glue
surrounding text into a doubled token across two applications.) -/
theorem c10_plsMatrix_prefix_idempotent :
    (∀ f ∈ plsPrefixFields, ∀ t : List Char,
        containsSub (plsBareToken f) t = false →
        pyReplace (plsBareToken f) (plsPrefixedToken f) t = t)
    ∧ (∀ f ∈ plsPrefixFields,
        containsSub (plsBareToken f) (plsPrefixedToken f) = false
        ∧ simple_field_cleanup (plsPrefixedToken f) = plsPrefixedToken f
        ∧ simple_field_cleanup (simple_field_cleanup (plsPrefixedToken f)) = plsPrefixedToken f
        ∧ containsSub (plsDoubledToken f) (simple_field_cleanup (plsPrefixedToken f)) = false) := by
  constructor
  · intro f _ t h
    exact pyReplace_of_not_containsSub _ _ _ h
  · decide

/-- C10 (witness): the amended theorem applied at the concrete field
`CSPhoneNumber`, with the prefixed token itself as the bare-pattern-free
text. -/
theorem c10_plsMatrix_prefix_idempotent_witness :
    pyReplace (plsBareToken (("CSPhoneNumber").data))
        (plsPrefixedToken (("CSPhoneNumber").data))
        (plsPrefixedToken (("CSPhoneNumber").data))
      = plsPrefixedToken (("CSPhoneNumber").data)
    ∧ simple_field_cleanup (plsPrefixedToken (("CSPhoneNumber").data))
      = plsPrefixedToken (("CSPhoneNumber").data)
    ∧ containsSub (plsDoubledToken (("CSPhoneNumber").data))
        (simple_field_cleanup (plsPrefixedToken (("CSPhoneNumber").data))) = false := by
  have h := c10_plsMatrix_prefix_idempotent
  exact ⟨h.1 (("CSPhoneNumber").data) (by decide)
          (plsPrefixedToken (("CSPhoneNumber").data)) (by decide),
    (h.2 (("CSPhoneNumber").data) (by decide)).2.1,
    (h.2 (("CSPhoneNumber").data) (by decide)).2.2.2⟩

/-- C4 (counterexample): the H003 marker is tested *before* the
`Notice of Intention to Foreclose` pattern, so an input containing the
marker together with both `Notice of Intention to Foreclose` and
`Privacy Policy` classifies as `H003`, not `BR010` — refuting the claim's
"any input containing both … classifies as BR010". -/
theorem c4_counterexample_marker_beats_noitf :
    detect_document_type
        [plainPara (("\x7bInsert(H003 TagHeader)\x7d Notice of Intention to Foreclose Privacy Policy").data)]
      = (("H003").data)
    ∧ containsSub (("Notice of Intention to Foreclose").data)
        (allParagraphText
          [plainPara (("\x7bInsert(H003 TagHeader)\x7d Notice of Intention to Foreclose Privacy Policy").data)])
      = true
    ∧ containsSub (("Privacy Policy").data)
        (allParagraphText
          [plainPara (("\x7bInsert(H003 TagHeader)\x7d Notice of Intention to Foreclose Privacy Policy").data)])
      = true
    ∧ ((detect_document_type
          [plainPara (("\x7bInsert(H003 TagHeader)\x7d Notice of Intention to Foreclose Privacy Policy").data)]
        == (("BR010").data)) = false) := ⟨rfl, rfl, rfl, rfl⟩

/-- C4 (amended): `detect_document_type` joins all paragraph texts with a
single space and tests the ordered pattern list — H003 marker, then
`Notice of Intention to Foreclose`, then `Notice of Default and Right to
Cure`, then `Privacy Policy`/`FACTS`, then `maturity date`/`payoff
statement` — returning the label of the first match and `GENERIC` when none
matches; in particular an input containing both `Notice of Intention to
Foreclose` and `Privacy Policy` *and not matching the H003 marker*
classifies as `BR010`. -/
theorem c4_ordered_first_match (ps : List ParaData) :
    ((firstMatch matchH003 (allParagraphText ps)).isSome = true →
      detect_document_type ps = (("H003").data))
    ∧ ((firstMatch matchH003 (allParagraphText ps)).isSome = false →
        containsSub (("Notice of Intention to Foreclose").data) (allParagraphText ps) = true →
        detect_document_type ps = (("BR010").data))
    ∧ ((firstMatch matchH003 (allParagraphText ps)).isSome = false →
        containsSub (("Notice of Intention to Foreclose").data) (allParagraphText ps) = false →
        containsSub (("Notice of Default and Right to Cure").data) (allParagraphText ps) = true →
        detect_document_type ps = (("BR017").data))
    ∧ ((firstMatch matchH003 (allParagraphText ps)).isSome = false →
        containsSub (("Notice of Intention to Foreclose").data) (allParagraphText ps) = false →
        containsSub (("Notice of Default and Right to Cure").data) (allParagraphText ps) = false →
        (containsSub (("Privacy Policy").data) (allParagraphText ps)
          || containsSub (("FACTS").data) (allParagraphText ps)) = true →
        detect_document_type ps = (("PRIVACY").data))
    ∧ ((firstMatch matchH003 (allParagraphText ps)).isSome = false →
        containsSub (("Notice of Intention to Foreclose").data) (allParagraphText ps) = false →
        containsSub (("Notice of Default and Right to Cure").data) (allParagraphText ps) = false →
        (containsSub (("Privacy Policy").data) (allParagraphText ps)
          || containsSub (("FACTS").data) (allParagraphText ps)) = false →
        (containsSub (("maturity date").data) (allParagraphText ps)
          || containsSub (("payoff statement").data) (allParagraphText ps)) = true →
        detect_document_type ps = (("SL106").data))
    ∧ ((firstMatch matchH003 (allParagraphText ps)).isSome = false →
        containsSub (("Notice of Intention to Foreclose").data) (allParagraphText ps) = false →
        containsSub (("Notice of Default and Right to Cure").data) (allParagraphText ps) = false →
        (containsSub (("Privacy Policy").data) (allParagraphText ps)
          || containsSub (("FACTS").data) (allParagraphText ps)) = false →
        (containsSub (("maturity date").data) (allParagraphText ps)
          || containsSub (("payoff statement").data) (allParagraphText ps)) = false →
        detect_document_type ps = (("GENERIC").data)) := by
  refine ⟨?_, ?_, ?_, ?_, ?_, ?_⟩
  · intro h1
    simp [detect_document_type, h1]
  · intro h1 h2
    simp [detect_document_type, h1, h2]
  · intro h1 h2 h3
    simp [detect_document_type, h1, h2, h3]
  · intro h1 h2 h3 h4
    simp [detect_document_type, h1, h2, h3, h4]
  · intro h1 h2 h3 h4 h5
    simp [detect_document_type, h1, h2, h3, h4, h5]
  · intro h1 h2 h3 h4 h5
    simp [detect_document_type, h1, h2, h3, h4, h5]

/-- C4 (witness): the amended BR010 clause applied at a concrete input
containing both `Notice of Intention to Foreclose` and `Privacy Policy` but
not the H003 marker. -/
theorem c4_ordered_first_match_witness :
    detect_document_type
        [plainPara (("Notice of Intention to Foreclose Privacy Policy").data)]
      = (("BR010").data) :=
  (c4_ordered_first_match
      [plainPara (("Notice of Intention to Foreclose Privacy Policy").data)]).2.1 rfl rfl

/-- C6: a rendered paragraph block carries a paragraph-level `font-size`
style attribute if and only if at least one of its runs has a truthy font
size and all runs with truthy font sizes declare the same size; with two
differing sizes the attribute is omitted entirely. -/
theorem c6_font_size_style_iff (p : ParaData) :
    (∃ a ∈ divAttrsOf p, (("font-size").data).isPrefixOf a = true)
    ↔ (fontSizesOf p.runs ≠ []
        ∧ ∀ x ∈ fontSizesOf p.runs, ∀ y ∈ fontSizesOf p.runs, x = y) := by
  have halign : ∀ x : List Char,
      (("font-size").data).isPrefixOf ((("text-align: ").data) ++ x) = false := fun x => rfl
  have hfont : ∀ x : List Char,
      (("font-size").data).isPrefixOf ((("font-size: ").data) ++ x) = true := fun x => rfl
  by_cases hcond :
      (!(fontSizesOf p.runs).isEmpty && (fontSizesOf p.runs).dedup.length == 1) = true
  · have hattrs : divAttrsOf p
        = (if p.alignment ≠ ("left").data
            then [(("text-align: ").data) ++ p.alignment] else [])
          ++ [(("font-size: ").data) ++ (fontSizesOf p.runs).headI] := by
      unfold divAttrsOf
      simp only [hcond, if_true]
    have h1 : fontSizesOf p.runs ≠ [] ∧ (fontSizesOf p.runs).dedup.length = 1 := by
      rw [Bool.and_eq_true] at hcond
      refine ⟨?_, by simpa using hcond.2⟩
      have := hcond.1
      simpa [List.isEmpty_iff] using this
    constructor
    · intro _
      exact ⟨h1.1, ((dedup_length_one_iff _).mp h1.2).2⟩
    · intro _
      refine ⟨(("font-size: ").data) ++ (fontSizesOf p.runs).headI, ?_, hfont _⟩
      rw [hattrs]
      simp
  · have hattrs : divAttrsOf p
        = (if p.alignment ≠ ("left").data
            then [(("text-align: ").data) ++ p.alignment] else []) := by
      unfold divAttrsOf
      rw [Bool.not_eq_true] at hcond
      simp only [hcond]
      simp
    constructor
    · rintro ⟨a, ha, hpref⟩
      rw [hattrs] at ha
      by_cases hal : p.alignment ≠ ("left").data
      · rw [if_pos hal] at ha
        simp only [List.mem_singleton] at ha
        rw [ha, halign] at hpref
        exact absurd hpref (by simp)
      · rw [if_neg hal] at ha
        simp at ha
    · rintro ⟨hne, hall⟩
      exfalso
      have hd : (fontSizesOf p.runs).dedup.length = 1 :=
        (dedup_length_one_iff _).mpr ⟨hne, hall⟩
      have : (!(fontSizesOf p.runs).isEmpty
          && (fontSizesOf p.runs).dedup.length == 1) = true := by
        simp [List.isEmpty_iff, hne, hd]
      exact absurd this (by simpa using hcond)

/-- C6 (witness): a paragraph whose two runs both declare `12pt` carries a
`font-size` attribute. -/
theorem c6_font_size_style_iff_witness :
    ∃ a ∈ divAttrsOf
        { text := (("ab").data)
          alignment := ("left").data
          fontSize := none
          bold := false
          underline := false
          italic := false
          runs :=
            [ { text := (("a").data), bold := false, underline := false, italic := false
                fontSize := some (("12pt").data) }
            , { text := (("b").data), bold := false, underline := false, italic := false
                fontSize := some (("12pt").data) } ] },
      (("font-size").data).isPrefixOf a = true :=
  (c6_font_size_style_iff _).mpr ⟨by decide, by decide⟩

/-- C9: for an extracted paragraph the `bold` flag is true exactly when the
run list is non-empty and every run whose stripped text is non-empty is
bold; hence a non-empty paragraph whose runs are all whitespace-only gets
`bold = true` vacuously, while a paragraph with zero runs keeps the default
`bold = false`. -/
theorem c9_bold_conjunction_over_nonws_runs (p : DocxPara) :
    (extract_paragraph_formatting p).bold = true
    ↔ (p.runs ≠ [] ∧ ∀ r ∈ p.runs, ((pyStrip r.text).isEmpty = false → r.bold = true)) := by
  by_cases hp : p.runs = []
  · simp [extract_paragraph_formatting, hp]
  · have hne : (List.map convertRun p.runs).isEmpty = false := by
      simp [List.isEmpty_iff, hp]
    have hbold : (extract_paragraph_formatting p).bold
        = ((List.map convertRun p.runs).filter
            (fun x => !(pyStrip x.text).isEmpty)).all (fun x => x.bold) := by
      simp [extract_paragraph_formatting, hne]
    rw [hbold, List.all_eq_true]
    constructor
    · intro hall
      refine ⟨hp, fun r hr hstrip => ?_⟩
      have hmem : convertRun r ∈ (List.map convertRun p.runs).filter
          (fun x => !(pyStrip x.text).isEmpty) := by
        rw [List.mem_filter]
        exact ⟨List.mem_map_of_mem _ hr, by simp [convertRun, hstrip]⟩
      simpa [convertRun] using hall _ hmem
    · rintro ⟨-, hall⟩ x hx
      rw [List.mem_filter] at hx
      obtain ⟨hmx, hq⟩ := hx
      rw [List.mem_map] at hmx
      obtain ⟨r1, hr1, rfl⟩ := hmx
      have h1 : (pyStrip r1.text).isEmpty = false := by
        simpa [convertRun] using hq
      simpa [convertRun] using hall r1 hr1 h1

/-- C9 (witness): a paragraph with one whitespace-only non-bold run has
`bold = true` (the conjunction is vacuous). -/
theorem c9_bold_conjunction_over_nonws_runs_witness :
    (extract_paragraph_formatting
      { alignment := none
        runs := [ { text := ((" ").data), bold := false, underline := false
                    italic := false, fontSizeEmu := none } ] }).bold = true :=
  (c9_bold_conjunction_over_nonws_runs _).mpr ⟨by decide, by decide⟩

theorem matchDivDear_at_lit (Y : List Char) :
    matchDivOpenThen (("Dear").data) ((("<div>Dear ").data) ++ Y) = true := rfl

theorem afterDivOpen_gt (p : List Char → Bool) (rest : List Char) :
    afterDivOpen p ('>' :: rest) = p rest := by
  simp [afterDivOpen]

theorem matchNotice_at_lit (Y : List Char) :
    matchDivOpenThen (("Notice is hereby given").data)
      ((("<div>Notice is hereby given").data) ++ Y) = true := by
  have h1 : (("<div>Notice is hereby given").data) ++ Y
      = (("<div").data) ++ (((">Notice is hereby given").data) ++ Y) := rfl
  unfold matchDivOpenThen matchDivOpenP
  rw [Bool.and_eq_true]
  refine ⟨by rw [h1]; exact isPrefixOf_append_self _ _, ?_⟩
  have h2 : List.drop 4 ((("<div>Notice is hereby given").data) ++ Y)
      = '>' :: ((("Notice is hereby given").data) ++ Y) := rfl
  rw [h2, afterDivOpen_gt]
  exact isPrefixOf_append_self _ _

/-- C7: on rendered HTML consisting of a prefix with no `Dear` block match
and no capital `D`, two consecutive `Dear` blocks, and a
`<div>Notice is hereby given` block whose continuation has no capital `D`,
the effective salutation pass replaces the whole span from the first `Dear`
block up to the notice block with the single canonical
`<div>Dear \x7b[Salutation]\x7d,</div>` line (followed by its `\n<br>`
separator) directly before the notice block, and the output contains exactly
one `Dear` occurrence — no other `Dear` block survives. -/
theorem c7_salutation_collapse (P s1 s2 rest : List Char)
    (h1 : ∀ i, i < P.length →
        matchDivOpenThen (("Dear").data)
          (List.drop i (salutationScenario P s1 s2 rest)) = false)
    (h2 : ∀ i, i < P.length + s1.length + s2.length + 44 →
        matchDivOpenThen (("Notice is hereby given").data)
          (List.drop i (salutationScenario P s1 s2 rest)) = false)
    (h3 : P.count 'D' = 0) (h4 : rest.count 'D' = 0) :
    fix_salutation_section (salutationScenario P s1 s2 rest)
      = P ++ (cleanSalutation ++ ((("<div>Notice is hereby given").data) ++ rest))
    ∧ countSub (("Dear").data)
        (fix_salutation_section (salutationScenario P s1 s2 rest)) = 1 := by
  have hts : salutationScenario P s1 s2 rest
      = P ++ ((("<div>Dear ").data) ++ (s1 ++ ((("</div>\n<br>\n<div>Dear ").data)
        ++ (s2 ++ ((("</div>\n<br>\n").data)
          ++ ((("<div>Notice is hereby given").data) ++ rest)))))) := rfl
  have hpre : salutationScenario P s1 s2 rest
      = (P ++ ((("<div>Dear ").data) ++ (s1 ++ ((("</div>\n<br>\n<div>Dear ").data)
          ++ (s2 ++ (("</div>\n<br>\n").data))))))
        ++ ((("<div>Notice is hereby given").data) ++ rest) := by
    rw [hts]
    simp [List.append_assoc]
  have l10 : ((("<div>Dear ").data)).length = 10 := rfl
  have l22 : ((("</div>\n<br>\n<div>Dear ").data)).length = 22 := rfl
  have l12 : ((("</div>\n<br>\n").data)).length = 12 := rfl
  have hprelen : (P ++ ((("<div>Dear ").data) ++ (s1 ++ ((("</div>\n<br>\n<div>Dear ").data)
      ++ (s2 ++ (("</div>\n<br>\n").data)))))).length
      = P.length + s1.length + s2.length + 44 := by
    simp only [List.length_append, l10, l22, l12]
    omega
  have hstart : firstMatch (matchDivOpenThen (("Dear").data))
      (salutationScenario P s1 s2 rest) = some P.length := by
    refine firstMatch_eq_some _ _ _ h1 ?_
    rw [hts, List.drop_left]
    exact matchDivDear_at_lit _
  have hend : firstMatch (matchDivOpenThen (("Notice is hereby given").data))
      (salutationScenario P s1 s2 rest)
      = some (P.length + s1.length + s2.length + 44) := by
    refine firstMatch_eq_some _ _ _ h2 ?_
    rw [hpre, ← hprelen, List.drop_left]
    exact matchNotice_at_lit rest
  have hendpos : salutationEndPos (salutationScenario P s1 s2 rest)
      = some (P.length + s1.length + s2.length + 44) := by
    unfold salutationEndPos
    rw [hend]
    rfl
  have htake : (salutationScenario P s1 s2 rest).take P.length = P := by
    rw [hts]
    exact List.take_left _ _
  have hdrop : (salutationScenario P s1 s2 rest).drop
      (P.length + s1.length + s2.length + 44)
      = (("<div>Notice is hereby given").data) ++ rest := by
    rw [hpre, ← hprelen, List.drop_left]
  have hfix : fix_salutation_section (salutationScenario P s1 s2 rest)
      = P ++ (cleanSalutation ++ ((("<div>Notice is hereby given").data) ++ rest)) := by
    unfold fix_salutation_section
    rw [hstart, hendpos]
    dsimp only
    rw [if_neg (by omega : ¬(P.length + s1.length + s2.length + 44 = 0))]
    rw [htake, hdrop]
    simp [List.append_assoc]
  refine ⟨hfix, ?_⟩
  rw [hfix]
  have c1 : cleanSalutation.count 'D' = 1 := rfl
  have c2 : ((("<div>Notice is hereby given").data)).count 'D' = 0 := rfl
  have hc : (P ++ (cleanSalutation ++ ((("<div>Notice is hereby given").data) ++ rest))).count 'D'
      = 1 := by
    rw [List.count_append, List.count_append, List.count_append, h3, h4, c1, c2]
  have hD : (("Dear").data) = 'D' :: (("ear").data) := rfl
  have hub : countSub (("Dear").data)
      (P ++ (cleanSalutation ++ ((("<div>Notice is hereby given").data) ++ rest))) ≤ 1 := by
    rw [hD]
    rw [← hc]
    exact countSub_le_count 'D' (("ear").data) _
  have hlow : 1 ≤ countSub (("Dear").data)
      (P ++ (cleanSalutation ++ ((("<div>Notice is hereby given").data) ++ rest))) := by
    refine one_le_countSub _ _ (P.length + 5) ?_
    rw [drop_append_add]
    rfl
  omega

/-- C7 (witness): the theorem applied at an empty prefix, salutations `A`
and `B`, and notice continuation ` that you are in default</div>`. -/
theorem c7_salutation_collapse_witness :
    fix_salutation_section
        (salutationScenario [] (("A").data) (("B").data)
          ((" that you are in default</div>").data))
      = [] ++ (cleanSalutation ++ ((("<div>Notice is hereby given").data)
          ++ ((" that you are in default</div>").data)))
    ∧ countSub (("Dear").data)
        (fix_salutation_section
          (salutationScenario [] (("A").data) (("B").data)
            ((" that you are in default</div>").data))) = 1 :=
  c7_salutation_collapse [] (("A").data) (("B").data)
    ((" that you are in default</div>").data)
    (by decide) (by decide) (by decide) (by decide)
